import Mathlib

/-!
Shallow embedding of the OpenCog cognitive core of the repository
(packages/server/src/services/opencog/cognitiveOrchestrator.ts and
synergyArchitecture.ts).

Modelling conventions:
* JS numbers are rationals (`ℚ`); all arithmetic in the source is exact at
  these magnitudes, so no rounding model is needed.
* JS `Map`s are insertion-ordered association lists (`List (String × α)`):
  `set` overwrites in place or appends, `get` returns the first binding.
* JS `Set`s of strings are insertion-ordered duplicate-free lists.
* `Date.now()` results are natural-number parameters supplied by the caller.
* `Math.random()` choices are explicit parameters (the greeting index).
* `emit` calls are collected into an event list returned alongside the state.
-/

namespace CogBot

/-- Association-list model of a JS `Map` lookup: first binding wins. -/
def mapGet {α : Type} (m : List (String × α)) (k : String) : Option α :=
  match m with
  | [] => none
  | e :: es => if e.1 = k then some e.2 else mapGet es k

/-- JS `Map.set`: overwrite in place if the key is present, else append. -/
def mapSet {α : Type} (m : List (String × α)) (k : String) (v : α) :
    List (String × α) :=
  match m with
  | [] => [(k, v)]
  | e :: es => if e.1 = k then (k, v) :: es else e :: mapSet es k v

/-- JS `Map.delete`. -/
def mapDelete {α : Type} (m : List (String × α)) (k : String) :
    List (String × α) :=
  m.filter (fun e => e.1 ≠ k)

/-- Mutate the value stored under `k` in place, if present (the JS pattern
`const x = map.get(k); if (x) mutate(x)`). -/
def mapUpdate {α : Type} (m : List (String × α)) (k : String) (f : α → α) :
    List (String × α) :=
  m.map (fun e => if e.1 = k then (e.1, f e.2) else e)

/-- JS `Set.add`: append if absent (JS sets preserve insertion order). -/
def setAdd (s : List String) (k : String) : List String :=
  if k ∈ s then s else s ++ [k]

/-- Substring test on character lists, the semantics of JS
`String.prototype.includes`. -/
def listIncludes (pat : List Char) : List Char → Bool
  | [] => pat.isEmpty
  | c :: cs => pat.isPrefixOf (c :: cs) || listIncludes pat cs

/-- JS `text.toLowerCase()` (ASCII, which covers every string the code scans). -/
def lowerStr (s : String) : String := ⟨s.data.map Char.toLower⟩

/-- JS `s.includes(pat)`. -/
def strIncludes (s pat : String) : Bool := listIncludes pat.data s.data

/-- Decimal rendering used for the JS `(x * 100).toFixed(1)` interpolations
(the claims never inspect these digits; rounding is round-half-up). -/
def fmtTenths (q : ℚ) : String :=
  let n : ℤ := round (q * 10)
  let a := n.natAbs
  (if n < 0 then "-" else "") ++ toString (a / 10) ++ "." ++ toString (a % 10)

/-! ## Data model of the cognitive orchestrator -/

structure TruthValue where
  strength : ℚ
  confidence : ℚ
deriving DecidableEq

structure AttentionValue where
  shortTermImportance : ℚ
  longTermImportance : ℚ
  vlti : ℚ
deriving DecidableEq

inductive NodeType
  | concept | predicate | schema | procedure
deriving DecidableEq

inductive LinkType
  | inheritance | similarity | implication | evaluation | execution
deriving DecidableEq

structure CognitiveLink where
  source : String
  target : String
  type : LinkType
  truthValue : TruthValue
  weight : ℚ
deriving DecidableEq

structure CognitiveNode where
  id : String
  type : NodeType
  truthValue : TruthValue
  attentionValue : AttentionValue
  relationships : List CognitiveLink
  timestamp : ℕ
deriving DecidableEq

structure CognitivePattern where
  id : String
  name : String
  description : String
  nodes : List CognitiveNode
  links : List CognitiveLink
  activationThreshold : ℚ
  synergyScore : ℚ
deriving DecidableEq

structure AdaptationRecord where
  timestamp : ℕ
  trigger : String
  adaptation : String
  effectiveness : ℚ
deriving DecidableEq

structure CognitiveState where
  activeNodes : List String
  attentionalFocus : List String
  emergentPatterns : List CognitivePattern
  synergyLevel : ℚ
  learningRate : ℚ
  adaptationHistory : List AdaptationRecord
deriving DecidableEq

structure OrchestratorState where
  cognitiveState : CognitiveState
  atomSpace : List (String × CognitiveNode)
  patternMatchers : List (String × CognitivePattern)
  autonomousMode : Bool
  learningEnabled : Bool
  adaptationThreshold : ℚ
deriving DecidableEq

/-- The dynamically-typed `input` argument of `processInput`, as a tagged
record: `dialog`/`requiresResponse` model JS truthiness of those fields. -/
structure CogInput where
  type : Option String
  text : Option String
  dialog : Bool
  requiresResponse : Bool
  dialogState : Option String
  turnCount : Option ℕ
deriving DecidableEq

/-! ## Seed data (initializeCognitiveSystem / initializeBasicPatterns) -/

def createIntentNodes (now : ℕ) : List CognitiveNode :=
  [ { id := "user_input", type := .concept,
      truthValue := { strength := 1, confidence := 0.9 },
      attentionValue := { shortTermImportance := 0.8, longTermImportance := 0.6, vlti := 0.4 },
      relationships := [], timestamp := now },
    { id := "intent_classifier", type := .procedure,
      truthValue := { strength := 0.9, confidence := 0.85 },
      attentionValue := { shortTermImportance := 0.9, longTermImportance := 0.8, vlti := 0.7 },
      relationships := [], timestamp := now },
    { id := "context_analyzer", type := .procedure,
      truthValue := { strength := 0.85, confidence := 0.8 },
      attentionValue := { shortTermImportance := 0.7, longTermImportance := 0.9, vlti := 0.8 },
      relationships := [], timestamp := now } ]

def createIntentLinks : List CognitiveLink :=
  [ { source := "user_input", target := "intent_classifier", type := .execution,
      truthValue := { strength := 0.9, confidence := 0.85 }, weight := 0.8 },
    { source := "user_input", target := "context_analyzer", type := .evaluation,
      truthValue := { strength := 0.85, confidence := 0.8 }, weight := 0.75 } ]

def createDialogNodes (now : ℕ) : List CognitiveNode :=
  [ { id := "dialog_state", type := .concept,
      truthValue := { strength := 1, confidence := 0.95 },
      attentionValue := { shortTermImportance := 0.95, longTermImportance := 0.85, vlti := 0.7 },
      relationships := [], timestamp := now },
    { id := "flow_controller", type := .procedure,
      truthValue := { strength := 0.9, confidence := 0.9 },
      attentionValue := { shortTermImportance := 0.85, longTermImportance := 0.9, vlti := 0.8 },
      relationships := [], timestamp := now } ]

def createDialogLinks : List CognitiveLink :=
  [ { source := "dialog_state", target := "flow_controller", type := .execution,
      truthValue := { strength := 0.95, confidence := 0.9 }, weight := 0.9 } ]

def createResponseNodes (now : ℕ) : List CognitiveNode :=
  [ { id := "response_generator", type := .procedure,
      truthValue := { strength := 0.9, confidence := 0.85 },
      attentionValue := { shortTermImportance := 0.8, longTermImportance := 0.7, vlti := 0.6 },
      relationships := [], timestamp := now },
    { id := "contextual_adapter", type := .procedure,
      truthValue := { strength := 0.85, confidence := 0.8 },
      attentionValue := { shortTermImportance := 0.75, longTermImportance := 0.85, vlti := 0.9 },
      relationships := [], timestamp := now } ]

def createResponseLinks : List CognitiveLink :=
  [ { source := "response_generator", target := "contextual_adapter", type := .execution,
      truthValue := { strength := 0.88, confidence := 0.83 }, weight := 0.85 } ]

def intentPattern (now : ℕ) : CognitivePattern :=
  { id := "intent_recognition", name := "Intent Recognition Synergy",
    description := "Cognitive pattern for autonomous intent recognition and classification",
    nodes := createIntentNodes now, links := createIntentLinks,
    activationThreshold := 0.6, synergyScore := 0.8 }

def dialogPattern (now : ℕ) : CognitivePattern :=
  { id := "dialog_management", name := "Dialog Flow Synergy",
    description := "Cognitive pattern for autonomous dialog state management",
    nodes := createDialogNodes now, links := createDialogLinks,
    activationThreshold := 0.7, synergyScore := 0.75 }

def responsePattern (now : ℕ) : CognitivePattern :=
  { id := "response_generation", name := "Response Generation Synergy",
    description := "Cognitive pattern for contextually adaptive response generation",
    nodes := createResponseNodes now, links := createResponseLinks,
    activationThreshold := 0.65, synergyScore := 0.85 }

/-- `initializeCognitiveSystem`: rebuild the cognitive state, the
atomSpace (as an empty map — no code path in the source ever inserts into
it) and the seed pattern map. The configuration fields `autonomousMode`,
`learningEnabled` and `adaptationThreshold` are class-field initializers,
set only at construction, and are untouched here. -/
def initializeCognitiveSystem (st : OrchestratorState) (now : ℕ) :
    OrchestratorState :=
  { st with
    cognitiveState :=
      { activeNodes := [], attentionalFocus := [], emergentPatterns := [],
        synergyLevel := 0.5, learningRate := 0.1, adaptationHistory := [] },
    atomSpace := [],
    patternMatchers :=
      mapSet (mapSet (mapSet [] (intentPattern now).id (intentPattern now))
        (dialogPattern now).id (dialogPattern now))
        (responsePattern now).id (responsePattern now) }

/-- The `CognitiveOrchestrator` state after construction: the field
initializers set the three configuration flags, then the constructor runs
`initializeCognitiveSystem`. -/
def initOrchestratorState (now : ℕ) : OrchestratorState :=
  initializeCognitiveSystem
    { cognitiveState :=
        { activeNodes := [], attentionalFocus := [], emergentPatterns := [],
          synergyLevel := 0.5, learningRate := 0.1, adaptationHistory := [] },
      atomSpace := [], patternMatchers := [],
      autonomousMode := true, learningEnabled := true,
      adaptationThreshold := 0.7 } now

/-! ## Core orchestrator operations -/

/-- `findRelevantNodes`. -/
def findRelevantNodes (input : CogInput) : List String :=
  (if input.type = some "message"
    then ["user_input", "intent_classifier", "context_analyzer"] else []) ++
  (if input.dialog then ["dialog_state", "flow_controller"] else []) ++
  (if input.requiresResponse then ["response_generator", "contextual_adapter"] else [])

/-- The per-node mutation in `updateCognitiveState`: +0.1 short-term
importance, clamped to 1. -/
def bumpShortTerm (n : CognitiveNode) : CognitiveNode :=
  { n with attentionValue :=
      { n.attentionValue with
        shortTermImportance := min 1 (n.attentionValue.shortTermImportance + 0.1) } }

/-- One iteration of the `relevantNodes.forEach` loop of
`updateCognitiveState`: mark the id active and bump the attention of the
node if the atomSpace holds it. -/
def relevantStep (s : OrchestratorState) (nodeId : String) : OrchestratorState :=
  { s with
    cognitiveState :=
      { s.cognitiveState with
        activeNodes := setAdd s.cognitiveState.activeNodes nodeId },
    atomSpace := mapUpdate s.atomSpace nodeId bumpShortTerm }

/-- The full `relevantNodes.forEach` loop of `updateCognitiveState`. -/
def applyRelevant (st : OrchestratorState) (ids : List String) : OrchestratorState :=
  ids.foldl relevantStep st

/-- Stable insert for the descending sort in `updateAttentionalFocus`. -/
def insertDesc (x : String × ℚ) : List (String × ℚ) → List (String × ℚ)
  | [] => [x]
  | y :: ys => if x.2 ≥ y.2 then x :: y :: ys else y :: insertDesc x ys

/-- Stable descending sort by importance (JS `sort` is stable). -/
def sortDesc : List (String × ℚ) → List (String × ℚ)
  | [] => []
  | x :: xs => insertDesc x (sortDesc xs)

/-- `updateAttentionalFocus`: top-5 active node ids by short-term importance
(0 for ids missing from the atomSpace). -/
def updateAttentionalFocus (st : OrchestratorState) : OrchestratorState :=
  let ranked := st.cognitiveState.activeNodes.map (fun nodeId =>
    (nodeId, (Option.map (fun n => n.attentionValue.shortTermImportance)
      (mapGet st.atomSpace nodeId)).getD 0))
  { st with cognitiveState :=
      { st.cognitiveState with
        attentionalFocus := ((sortDesc ranked).take 5).map Prod.fst } }

/-- One node of the activation accumulation in
`calculatePatternActivation`. -/
def activationStep (active : List String) (acc : ℚ × ℕ) (n : CognitiveNode) :
    ℚ × ℕ :=
  if n.id ∈ active
    then (acc.1 + n.truthValue.strength * n.truthValue.confidence, acc.2 + 1)
    else acc

/-- `calculatePatternActivation`: mean of strength×confidence over the
pattern nodes that are currently active; 0 if none. -/
def calculatePatternActivation (st : OrchestratorState) (p : CognitivePattern) : ℚ :=
  let r := p.nodes.foldl (activationStep st.cognitiveState.activeNodes)
    ((0 : ℚ), (0 : ℕ))
  if r.2 > 0 then r.1 / (r.2 : ℚ) else 0

/-- One pattern of the synergy accumulation in `calculateSynergyLevel`. -/
def synergyStep (st : OrchestratorState) (acc : ℚ × ℕ)
    (e : String × CognitivePattern) : ℚ × ℕ :=
  let activation := calculatePatternActivation st e.2
  if activation > e.2.activationThreshold
    then (acc.1 + e.2.synergyScore * activation, acc.2 + 1)
    else acc

/-- `calculateSynergyLevel`: mean of synergyScore×activation over patterns
above their activation threshold; 0.5 if none. -/
def computeSynergyLevel (st : OrchestratorState) : ℚ :=
  let r := st.patternMatchers.foldl (synergyStep st) ((0 : ℚ), (0 : ℕ))
  if r.2 > 0 then r.1 / (r.2 : ℚ) else 0.5

/-- `updateCognitiveState`. -/
def updateCognitiveState (st : OrchestratorState) (input : CogInput) : OrchestratorState :=
  let st1 := applyRelevant st (findRelevantNodes input)
  let st2 := updateAttentionalFocus st1
  { st2 with cognitiveState :=
      { st2.cognitiveState with synergyLevel := computeSynergyLevel st2 } }

structure IntentResult where
  intent : String
  confidence : ℚ
deriving DecidableEq

structure ContextResult where
  context : String
  dialogState : Option String
  turnCount : Option ℕ
  confidence : ℚ
deriving DecidableEq

structure ActionResult where
  action : String
  responseType : Option String
  adaptationLevel : Option ℚ
  confidence : ℚ
deriving DecidableEq

structure Reasoning where
  intent : IntentResult
  context : ContextResult
  action : ActionResult
  confidence : ℚ
deriving DecidableEq

/-- `reasonAboutIntent`: keyword scan over the lower-cased text. -/
def reasonAboutIntent (st : OrchestratorState) (input : CogInput) : IntentResult :=
  match mapGet st.patternMatchers "intent_recognition" with
  | none => { intent := "unknown", confidence := 0.5 }
  | some p =>
    let activation := calculatePatternActivation st p
    let general : IntentResult := { intent := "general", confidence := activation }
    match input.text with
    | none => general
    | some t =>
      if t = "" then general
      else
        let lo := lowerStr t
        if strIncludes lo "help" || strIncludes lo "assist" then
          { intent := "help_request", confidence := min 1 (activation + 0.2) }
        else if strIncludes lo "bye" || strIncludes lo "goodbye" then
          { intent := "farewell", confidence := min 1 (activation + 0.15) }
        else if strIncludes lo "hello" || strIncludes lo "hi" then
          { intent := "greeting", confidence := min 1 (activation + 0.15) }
        else general

/-- `reasonAboutContext`: the JS defaults for dialogState (falsy to
"active") and turnCount (falsy to 1) use truthiness coalescing. -/
def reasonAboutContext (st : OrchestratorState) (input : CogInput) : ContextResult :=
  match mapGet st.patternMatchers "dialog_management" with
  | none => { context := "unknown", dialogState := none, turnCount := none, confidence := 0.5 }
  | some p =>
    { context := "conversational",
      dialogState := some (match input.dialogState with
        | some s => if s = "" then "active" else s
        | none => "active"),
      turnCount := some (match input.turnCount with
        | some n => if n = 0 then 1 else n
        | none => 1),
      confidence := calculatePatternActivation st p }

/-- `reasonAboutAction`. -/
def reasonAboutAction (st : OrchestratorState) (_input : CogInput) : ActionResult :=
  match mapGet st.patternMatchers "response_generation" with
  | none => { action := "respond", responseType := none, adaptationLevel := none, confidence := 0.5 }
  | some p =>
    { action := "respond", responseType := some "contextual",
      adaptationLevel := some st.cognitiveState.synergyLevel,
      confidence := calculatePatternActivation st p }

/-- `applyCognitiveReasoning`. -/
def applyCognitiveReasoning (st : OrchestratorState) (input : CogInput) : Reasoning :=
  let i := reasonAboutIntent st input
  let c := reasonAboutContext st input
  let a := reasonAboutAction st input
  { intent := i, context := c, action := a,
    confidence := (i.confidence + c.confidence + a.confidence) / 3 }

def greetingTexts : List String :=
  [ "Hello! I\x27m here to help you with cognitive assistance.",
    "Hi there! Ready to explore some intelligent solutions together?",
    "Greetings! Let\x27s engage in some productive cognitive synergy." ]

/-- `generateGreeting` with the random index made explicit. -/
def generateGreeting (g : Fin 3) : String :=
  greetingTexts.get ⟨g.1, g.isLt⟩

def generateHelpResponse : String :=
  "I can assist you with cognitive reasoning, pattern recognition, and adaptive responses. " ++
  "My cognitive architecture allows me to learn and adapt to provide better assistance over time. " ++
  "What would you like help with?"

def generateFarewell : String :=
  "Goodbye! Our cognitive interaction has been valuable for my learning and adaptation. " ++
  "Feel free to return anytime for more intelligent assistance."

def generateGeneralResponse (st : OrchestratorState) (reasoning : Reasoning) : String :=
  "I understand you\x27re looking for assistance. Based on my cognitive analysis " ++
  "(confidence: " ++ fmtTenths (reasoning.confidence * 100) ++ "%), I\x27m ready to help. " ++
  "My current synergy level is " ++ fmtTenths (st.cognitiveState.synergyLevel * 100) ++
  "%, which means I\x27m operating with good cognitive coherence."

/-- `applyCognitiveAdaptation`: fixed annotation suffix outside [0.4, 0.8]. -/
def applyCognitiveAdaptation (st : OrchestratorState) (content : String) : String :=
  if st.cognitiveState.synergyLevel > 0.8 then
    content ++ " [Cognitive enhancement: High synergy detected - responses optimized for maximum effectiveness]"
  else if st.cognitiveState.synergyLevel < 0.4 then
    content ++ " [Cognitive adaptation: Adjusting response patterns to improve synergy]"
  else content

/-- `generateResponseContent`. -/
def generateResponseContent (st : OrchestratorState) (reasoning : Reasoning) (g : Fin 3) : String :=
  let content :=
    if reasoning.intent.intent = "greeting" then generateGreeting g
    else if reasoning.intent.intent = "help_request" then generateHelpResponse
    else if reasoning.intent.intent = "farewell" then generateFarewell
    else generateGeneralResponse st reasoning
  applyCognitiveAdaptation st content

/-- `generateAdaptations`. -/
def generateAdaptations (st : OrchestratorState) (reasoning : Reasoning) : List String :=
  (if reasoning.confidence < 0.6
    then ["Increase pattern matching sensitivity", "Enhance context analysis depth"] else []) ++
  (if st.cognitiveState.synergyLevel < 0.5
    then ["Strengthen cognitive node connections", "Optimize attention allocation"] else [])

/-- `getActivePatterns`. -/
def getActivePatterns (st : OrchestratorState) : List String :=
  st.patternMatchers.foldl (fun acc e =>
    if calculatePatternActivation st e.2 > e.2.activationThreshold
      then acc ++ [e.1] else acc) []

def processingPathList : List String :=
  [ "Input processing", "Cognitive state update", "Pattern activation",
    "Reasoning application", "Synergy calculation", "Response generation",
    "Adaptation planning" ]

structure ResponseMetadata where
  cognitiveState : CognitiveState
  activePatterns : List String
  processingPath : List String
deriving DecidableEq

structure CogResponse where
  type : String
  content : String
  confidence : ℚ
  synergyLevel : ℚ
  adaptations : List String
  metadata : ResponseMetadata
deriving DecidableEq

/-- `generateSynergyResponse`. -/
def generateSynergyResponse (st : OrchestratorState) (reasoning : Reasoning) (g : Fin 3) :
    CogResponse :=
  { type := "cognitive_response",
    content := generateResponseContent st reasoning g,
    confidence := reasoning.confidence,
    synergyLevel := st.cognitiveState.synergyLevel,
    adaptations := generateAdaptations st reasoning,
    metadata :=
      { cognitiveState := st.cognitiveState,
        activePatterns := getActivePatterns st,
        processingPath := processingPathList } }

/-- `calculateEffectiveness`. -/
def calculateEffectiveness (st : OrchestratorState) (resp : CogResponse)
    (processingTime : ℕ) : ℚ :=
  let timeEfficiency := max 0 (1 - (processingTime : ℚ) / 5000)
  let e1 := (resp.confidence + timeEfficiency) / 2
  let e2 := (e1 + st.cognitiveState.synergyLevel) / 2
  max 0 (min 1 e2)

/-- The push-then-trim discipline on the adaptation history
(`push`; if length > 100 keep the last 100, i.e. `slice(-100)`). -/
def pushHistory (h : List AdaptationRecord) (r : AdaptationRecord) :
    List AdaptationRecord :=
  let h2 := h ++ [r]
  if h2.length > 100 then h2.drop (h2.length - 100) else h2

/-- The `AdaptationRecord` built by `learnFromInteraction`. -/
def mkAdaptationRecord (input : CogInput) (resp : CogResponse)
    (effectiveness : ℚ) (now : ℕ) : AdaptationRecord :=
  { timestamp := now,
    trigger := "Input type: " ++ (match input.type with
      | some t => if t = "" then "unknown" else t
      | none => "unknown"),
    adaptation := "Response generated with " ++ fmtTenths (resp.confidence * 100)
      ++ "% confidence",
    effectiveness := effectiveness }

/-- The per-node mutation of `updateNodesFromLearning`: nudge the truth
value (clamped to [0,1]) and, if the effectiveness exceeds 0.7, bump the
long-term attention. -/
def learnNodeUpdate (effectiveness adjustment : ℚ) (n : CognitiveNode) :
    CognitiveNode :=
  let n1 := { n with truthValue :=
    { strength := max 0 (min 1 (n.truthValue.strength + adjustment)),
      confidence := max 0 (min 1 (n.truthValue.confidence + adjustment * 0.5)) } }
  if effectiveness > 0.7 then
    { n1 with attentionValue :=
        { n1.attentionValue with
          longTermImportance := min 1 (n1.attentionValue.longTermImportance + 0.05) } }
  else n1

/-- `updateNodesFromLearning`: apply `learnNodeUpdate` to every active node
present in the atomSpace. -/
def updateNodesFromLearning (st : OrchestratorState) (effectiveness : ℚ) :
    OrchestratorState :=
  let adjustment := (effectiveness - 0.5) * st.cognitiveState.learningRate
  { st with atomSpace :=
      st.cognitiveState.activeNodes.foldl (fun m nodeId =>
        mapUpdate m nodeId (learnNodeUpdate effectiveness adjustment)) st.atomSpace }

/-- `learnFromInteraction`. -/
def learnFromInteraction (st : OrchestratorState) (input : CogInput)
    (resp : CogResponse) (processingTime now : ℕ) : OrchestratorState :=
  let effectiveness := calculateEffectiveness st resp processingTime
  let record := mkAdaptationRecord input resp effectiveness now
  let lr := st.cognitiveState.learningRate
  let lr2 :=
    if effectiveness > 0.8 then min 0.2 (lr + 0.01)
    else if effectiveness < 0.4 then max 0.05 (lr - 0.01)
    else lr
  let st2 := { st with cognitiveState :=
    { st.cognitiveState with
      adaptationHistory := pushHistory st.cognitiveState.adaptationHistory record,
      learningRate := lr2 } }
  updateNodesFromLearning st2 effectiveness

inductive OrchEvent
  | cognition (input : CogInput) (response : CogResponse)
      (state : CognitiveState) (processingTime : ℕ)
  | autonomyChange (autonomous : Bool)
  | learningChange (learning : Bool)
  | patternAdded (patternId : String)
  | patternRemoved (patternId : String)
  | cognitiveReset
deriving DecidableEq

/-- `processInput`: update state, reason, synthesize the response, learn if
enabled, then emit a single `cognition` event. `t1`/`t2` are the two
`Date.now() - startTime` elapsed readings, `now` the record timestamp and
`g` the random greeting index. The emitted state snapshot is the
post-learning state, since the JS emitter receives the live (mutated)
`this.cognitiveState` object. -/
def processInput (st : OrchestratorState) (input : CogInput) (g : Fin 3)
    (t1 t2 now : ℕ) : OrchestratorState × CogResponse × List OrchEvent :=
  let st1 := updateCognitiveState st input
  let reasoning := applyCognitiveReasoning st1 input
  let resp := generateSynergyResponse st1 reasoning g
  let st2 := if st1.learningEnabled
    then learnFromInteraction st1 input resp t1 now else st1
  (st2, resp, [OrchEvent.cognition input resp st2.cognitiveState t2])

/-! ## Remaining public orchestrator API -/

def setAutonomousMode (st : OrchestratorState) (enabled : Bool) :
    OrchestratorState × List OrchEvent :=
  ({ st with autonomousMode := enabled }, [OrchEvent.autonomyChange enabled])

def setLearningEnabled (st : OrchestratorState) (enabled : Bool) :
    OrchestratorState × List OrchEvent :=
  ({ st with learningEnabled := enabled }, [OrchEvent.learningChange enabled])

def setAdaptationThreshold (st : OrchestratorState) (threshold : ℚ) :
    OrchestratorState :=
  { st with adaptationThreshold := max 0 (min 1 threshold) }

def addCognitivePattern (st : OrchestratorState) (p : CognitivePattern) :
    OrchestratorState × List OrchEvent :=
  ({ st with patternMatchers := mapSet st.patternMatchers p.id p },
   [OrchEvent.patternAdded p.id])

def removeCognitivePattern (st : OrchestratorState) (patternId : String) :
    OrchestratorState × List OrchEvent :=
  ({ st with patternMatchers := mapDelete st.patternMatchers patternId },
   [OrchEvent.patternRemoved patternId])

/-- `reset`: rerun `initializeCognitiveSystem` (fresh seed, new
timestamps) and emit `cognitive_reset`. The configuration flags are class
fields and survive the reset. -/
def resetOrchestrator (st : OrchestratorState) (now : ℕ) :
    OrchestratorState × List OrchEvent :=
  (initializeCognitiveSystem st now, [OrchEvent.cognitiveReset])

/-- `calculateAverageEffectiveness`: 0.5 on an empty history, else the mean
over the last ≤ 20 records (`slice(-20)`). -/
def calculateAverageEffectiveness (st : OrchestratorState) : ℚ :=
  let h := st.cognitiveState.adaptationHistory
  if h.length = 0 then 0.5
  else
    let recent := h.drop (h.length - 20)
    (recent.foldl (fun sum r => sum + r.effectiveness) 0) / (recent.length : ℚ)

structure CognitiveStatistics where
  totalNodes : ℕ
  activeNodes : ℕ
  totalPatterns : ℕ
  activePatterns : ℕ
  synergyLevel : ℚ
  learningRate : ℚ
  adaptationCount : ℕ
  averageEffectiveness : ℚ
deriving DecidableEq

/-- `getCognitiveStatistics`. -/
def getCognitiveStatistics (st : OrchestratorState) : CognitiveStatistics :=
  { totalNodes := st.atomSpace.length,
    activeNodes := st.cognitiveState.activeNodes.length,
    totalPatterns := st.patternMatchers.length,
    activePatterns := (getActivePatterns st).length,
    synergyLevel := st.cognitiveState.synergyLevel,
    learningRate := st.cognitiveState.learningRate,
    adaptationCount := st.cognitiveState.adaptationHistory.length,
    averageEffectiveness := calculateAverageEffectiveness st }

/-! ## Data model of the synergy architecture -/

inductive ComponentType
  | cognitive | behavioral | adaptive | emergent
deriving DecidableEq

inductive ConnectionType
  | data_flow | control_flow | feedback | reinforcement
deriving DecidableEq

structure SynergyConnection where
  targetId : String
  connectionType : ConnectionType
  strength : ℚ
  bandwidth : ℚ
  latency : ℚ
  reliability : ℚ
deriving DecidableEq

structure ComponentState where
  active : Bool
  load : ℚ
  efficiency : ℚ
  adaptationRate : ℚ
  lastUpdate : ℕ
  errorCount : ℕ
deriving DecidableEq

structure ComponentMetrics where
  throughput : ℚ
  responseTime : ℚ
  accuracy : ℚ
  resourceUsage : ℚ
  synergyContribution : ℚ
  emergentProperties : ℚ
deriving DecidableEq

structure SynergyComponent where
  id : String
  name : String
  type : ComponentType
  capabilities : List String
  connections : List SynergyConnection
  state : ComponentState
  metrics : ComponentMetrics
deriving DecidableEq

inductive Topology
  | hierarchical | networked | distributed | emergent
deriving DecidableEq

structure ArchitecturalPattern where
  id : String
  name : String
  description : String
  components : List SynergyComponent
  topology : Topology
  scalability : ℚ
  resilience : ℚ
  adaptability : ℚ
deriving DecidableEq

structure EmergentBehavior where
  id : String
  name : String
  description : String
  manifestation : String
  strength : ℚ
  stability : ℚ
  novelty : ℚ
  utility : ℚ
  components : List String
  triggers : List String
deriving DecidableEq

inductive AgentRole
  | orchestrator | analyzer | optimizer | learner | adapter
deriving DecidableEq

/-- Values stored in an agent knowledge map (the JS maps hold strings,
numbers and string arrays at seed time). -/
inductive KnowledgeVal
  | kstr (s : String)
  | knum (q : ℚ)
  | kstrs (l : List String)
deriving DecidableEq

structure AgentState where
  active : Bool
  currentGoal : String
  progress : ℚ
  resources : List (String × ℚ)
  knowledge : List (String × KnowledgeVal)
  experience : ℚ
deriving DecidableEq

structure AgentPerformance where
  taskCompletion : ℚ
  goalAchievement : ℚ
  resourceEfficiency : ℚ
  learningRate : ℚ
  adaptationSpeed : ℚ
  collaborationScore : ℚ
deriving DecidableEq

structure AutonomousAgent where
  id : String
  name : String
  role : AgentRole
  capabilities : List String
  goals : List String
  state : AgentState
  performance : AgentPerformance
deriving DecidableEq

structure ArchitecturalState where
  totalComponents : ℕ
  activeComponents : ℕ
  emergentBehaviors : ℕ
  synergyLevel : ℚ
  adaptationRate : ℚ
  autonomyLevel : ℚ
  coherence : ℚ
  resilience : ℚ
  lastEvolution : ℕ
  evolutionCount : ℕ
deriving DecidableEq

structure SynergyState where
  components : List (String × SynergyComponent)
  patterns : List (String × ArchitecturalPattern)
  emergentBehaviors : List (String × EmergentBehavior)
  autonomousAgents : List (String × AutonomousAgent)
  architecturalState : ArchitecturalState
  autogenesisEnabled : Bool
  synergyThreshold : ℚ
deriving DecidableEq

/-! ## Synergy architecture seed data -/

def cognitiveProcessorSeed (now : ℕ) : SynergyComponent :=
  { id := "cognitive_processor", name := "Cognitive Processing Engine",
    type := .cognitive,
    capabilities := ["reasoning", "inference", "pattern_matching", "decision_making"],
    connections :=
      [ { targetId := "behavioral_adapter", connectionType := .data_flow,
          strength := 0.8, bandwidth := 1000, latency := 10, reliability := 0.95 },
        { targetId := "adaptive_learner", connectionType := .control_flow,
          strength := 0.7, bandwidth := 800, latency := 15, reliability := 0.9 },
        { targetId := "emergent_intelligence", connectionType := .feedback,
          strength := 0.9, bandwidth := 600, latency := 20, reliability := 0.98 } ],
    state := { active := true, load := 0.3, efficiency := 0.85,
               adaptationRate := 0.1, lastUpdate := now, errorCount := 0 },
    metrics := { throughput := 100, responseTime := 50, accuracy := 0.9,
                 resourceUsage := 0.4, synergyContribution := 0.8,
                 emergentProperties := 0.6 } }

def behavioralAdapterSeed (now : ℕ) : SynergyComponent :=
  { id := "behavioral_adapter", name := "Behavioral Adaptation Engine",
    type := .behavioral,
    capabilities := ["behavior_modeling", "adaptation", "learning", "optimization"],
    connections :=
      [ { targetId := "cognitive_processor", connectionType := .feedback,
          strength := 0.75, bandwidth := 900, latency := 12, reliability := 0.92 },
        { targetId := "adaptive_learner", connectionType := .reinforcement,
          strength := 0.85, bandwidth := 1200, latency := 8, reliability := 0.94 } ],
    state := { active := true, load := 0.25, efficiency := 0.88,
               adaptationRate := 0.15, lastUpdate := now, errorCount := 0 },
    metrics := { throughput := 80, responseTime := 75, accuracy := 0.85,
                 resourceUsage := 0.35, synergyContribution := 0.75,
                 emergentProperties := 0.7 } }

def adaptiveLearnerSeed (now : ℕ) : SynergyComponent :=
  { id := "adaptive_learner", name := "Adaptive Learning System",
    type := .adaptive,
    capabilities := ["machine_learning", "pattern_discovery", "knowledge_extraction", "generalization"],
    connections :=
      [ { targetId := "cognitive_processor", connectionType := .data_flow,
          strength := 0.9, bandwidth := 1500, latency := 5, reliability := 0.96 },
        { targetId := "emergent_intelligence", connectionType := .data_flow,
          strength := 0.8, bandwidth := 700, latency := 18, reliability := 0.93 } ],
    state := { active := true, load := 0.4, efficiency := 0.82,
               adaptationRate := 0.2, lastUpdate := now, errorCount := 0 },
    metrics := { throughput := 120, responseTime := 60, accuracy := 0.88,
                 resourceUsage := 0.45, synergyContribution := 0.85,
                 emergentProperties := 0.8 } }

def emergentIntelligenceSeed (now : ℕ) : SynergyComponent :=
  { id := "emergent_intelligence", name := "Emergent Intelligence Controller",
    type := .emergent,
    capabilities := ["emergence_detection", "complexity_management", "self_organization", "innovation"],
    connections :=
      [ { targetId := "cognitive_processor", connectionType := .control_flow,
          strength := 0.95, bandwidth := 500, latency := 25, reliability := 0.99 },
        { targetId := "behavioral_adapter", connectionType := .control_flow,
          strength := 0.85, bandwidth := 600, latency := 22, reliability := 0.97 } ],
    state := { active := true, load := 0.2, efficiency := 0.9,
               adaptationRate := 0.25, lastUpdate := now, errorCount := 0 },
    metrics := { throughput := 60, responseTime := 100, accuracy := 0.92,
                 resourceUsage := 0.3, synergyContribution := 0.95,
                 emergentProperties := 0.95 } }

/-- The component map after `initializeCoreComponents` (connections already
established by `establishComponentConnections`). -/
def seedComponents (now : ℕ) : List (String × SynergyComponent) :=
  [ ("cognitive_processor", cognitiveProcessorSeed now),
    ("behavioral_adapter", behavioralAdapterSeed now),
    ("adaptive_learner", adaptiveLearnerSeed now),
    ("emergent_intelligence", emergentIntelligenceSeed now) ]

def seedComponentValues (now : ℕ) : List SynergyComponent :=
  (seedComponents now).map Prod.snd

def seedPatterns (now : ℕ) : List (String × ArchitecturalPattern) :=
  [ ("hierarchical_cognitive",
     { id := "hierarchical_cognitive", name := "Hierarchical Cognitive Architecture",
       description := "Multi-level cognitive processing with hierarchical control",
       components := seedComponentValues now, topology := .hierarchical,
       scalability := 0.8, resilience := 0.7, adaptability := 0.75 }),
    ("networked_synergy",
     { id := "networked_synergy", name := "Networked Synergy Architecture",
       description := "Highly interconnected cognitive components for maximum synergy",
       components := seedComponentValues now, topology := .networked,
       scalability := 0.9, resilience := 0.85, adaptability := 0.9 }),
    ("distributed_intelligence",
     { id := "distributed_intelligence", name := "Distributed Intelligence Architecture",
       description := "Distributed cognitive processing for scalability and resilience",
       components := seedComponentValues now, topology := .distributed,
       scalability := 0.95, resilience := 0.9, adaptability := 0.8 }),
    ("emergent_behavior",
     { id := "emergent_behavior", name := "Emergent Behavior Architecture",
       description := "Self-organizing architecture that enables emergent intelligence",
       components := seedComponentValues now, topology := .emergent,
       scalability := 0.85, resilience := 0.95, adaptability := 0.95 }) ]

def seedAgents : List (String × AutonomousAgent) :=
  [ ("orchestrator_agent",
     { id := "orchestrator_agent", name := "Architecture Orchestrator",
       role := .orchestrator,
       capabilities := ["coordination", "resource_allocation", "task_scheduling", "conflict_resolution"],
       goals := ["optimize_performance", "maintain_coherence", "ensure_resilience"],
       state := { active := true, currentGoal := "optimize_performance", progress := 0.6,
                  resources := [("cpu", 0.3), ("memory", 0.25), ("bandwidth", 0.4)],
                  knowledge := [("component_status", .kstr "good"),
                                ("synergy_level", .knum 0.75),
                                ("adaptation_needs", .kstr "minimal")],
                  experience := 0.7 },
       performance := { taskCompletion := 0.85, goalAchievement := 0.8,
                        resourceEfficiency := 0.9, learningRate := 0.15,
                        adaptationSpeed := 0.8, collaborationScore := 0.85 } }),
    ("analyzer_agent",
     { id := "analyzer_agent", name := "Performance Analyzer",
       role := .analyzer,
       capabilities := ["performance_monitoring", "bottleneck_detection", "trend_analysis", "prediction"],
       goals := ["identify_issues", "predict_problems", "optimize_metrics"],
       state := { active := true, currentGoal := "identify_issues", progress := 0.8,
                  resources := [("cpu", 0.2), ("memory", 0.3), ("storage", 0.15)],
                  knowledge := [("performance_history", .kstrs []),
                                ("anomaly_patterns", .kstrs []),
                                ("optimization_opportunities", .kstrs [])],
                  experience := 0.65 },
       performance := { taskCompletion := 0.9, goalAchievement := 0.85,
                        resourceEfficiency := 0.85, learningRate := 0.2,
                        adaptationSpeed := 0.7, collaborationScore := 0.8 } }),
    ("learner_agent",
     { id := "learner_agent", name := "Continuous Learner",
       role := .learner,
       capabilities := ["pattern_learning", "knowledge_extraction", "model_updating", "generalization"],
       goals := ["improve_accuracy", "discover_patterns", "update_models"],
       state := { active := true, currentGoal := "improve_accuracy", progress := 0.7,
                  resources := [("cpu", 0.4), ("memory", 0.5), ("storage", 0.3)],
                  knowledge := [("learned_patterns", .kstrs []),
                                ("model_updates", .kstrs []),
                                ("accuracy_metrics", .kstrs [])],
                  experience := 0.8 },
       performance := { taskCompletion := 0.88, goalAchievement := 0.82,
                        resourceEfficiency := 0.75, learningRate := 0.25,
                        adaptationSpeed := 0.85, collaborationScore := 0.9 } }) ]

/-- The `architecturalState` field initializer. -/
def seedArchitecturalState (now : ℕ) : ArchitecturalState :=
  { totalComponents := 0, activeComponents := 0, emergentBehaviors := 0,
    synergyLevel := 0.5, adaptationRate := 0.1, autonomyLevel := 0.8,
    coherence := 0.75, resilience := 0.6, lastEvolution := now,
    evolutionCount := 0 }

/-- The `SynergyArchitecture` state after construction
(`initializeArchitecture`). -/
def initSynergyState (now : ℕ) : SynergyState :=
  { components := seedComponents now,
    patterns := seedPatterns now,
    emergentBehaviors := [],
    autonomousAgents := seedAgents,
    architecturalState := seedArchitecturalState now,
    autogenesisEnabled := true,
    synergyThreshold := 0.7 }

/-! ## Evolution cycle -/

structure EvolutionPlan where
  shouldEvolve : Bool
  type : String
  changes : List String
  expectedImprovement : ℚ
deriving DecidableEq

inductive SynEvent
  | architectureEvolution (evolution : EvolutionPlan) (newState : ArchitecturalState)
  | emergentBehaviorDetected (behaviorId : String)
  | emergentBehaviorRemoved (behaviorId : String)
  | componentAdded (componentId : String)
  | componentRemoved (componentId : String)
  | autogenesisChange (enabled : Bool)
deriving DecidableEq

/-- `planArchitecturalEvolution`: note that the second branch overwrites the
`type` field written by the first. -/
def planArchitecturalEvolution (s : SynergyState) : EvolutionPlan :=
  let e0 : EvolutionPlan :=
    { shouldEvolve := false, type := "optimization", changes := [],
      expectedImprovement := 0 }
  let e1 :=
    if s.architecturalState.synergyLevel < s.synergyThreshold then
      { e0 with
        shouldEvolve := true,
        type := "synergy_improvement",
        changes := e0.changes ++
          ["Strengthen component connections", "Optimize information flow"],
        expectedImprovement := 0.1 }
    else e0
  if s.architecturalState.coherence < 0.7 then
    { e1 with
      shouldEvolve := true,
      type := "coherence_improvement",
      changes := e1.changes ++
        ["Realign component goals", "Improve coordination mechanisms"],
      expectedImprovement := e1.expectedImprovement + 0.15 }
  else e1

/-- `improveSynergy`: strengthen connections with reliability > 0.9. -/
def improveSynergy (s : SynergyState) : SynergyState :=
  { s with components := s.components.map (fun e =>
      (e.1, { e.2 with connections := e.2.connections.map (fun c =>
        if c.reliability > 0.9 then
          { c with strength := min 1 (c.strength + 0.05),
                   bandwidth := min 2000 (c.bandwidth * 1.1) }
        else c) })) }

/-- `improveCoherence`: raise efficiency, lower adaptation rate. -/
def improveCoherence (s : SynergyState) : SynergyState :=
  { s with components := s.components.map (fun e =>
      (e.1, { e.2 with state :=
        { e.2.state with
          efficiency := min 1 (e.2.state.efficiency + 0.02),
          adaptationRate := max 0.05 (e.2.state.adaptationRate - 0.01) } })) }

/-- `optimizeArchitecture`: reduce the load of components above 1.2× the
mean (the JS division by `size` is undefined on an empty registry; on ℚ it
yields 0, and no caller reaches this with an empty registry). -/
def optimizeArchitecture (s : SynergyState) : SynergyState :=
  let avgLoad := (s.components.foldl (fun sum e => sum + e.2.state.load) 0) /
    (s.components.length : ℚ)
  { s with components := s.components.map (fun e =>
      if e.2.state.load > avgLoad * 1.2 then
        (e.1, { e.2 with state :=
          { e.2.state with load := max 0.1 (e.2.state.load - 0.1) } })
      else e) }

/-- `applyArchitecturalEvolution`: dispatch on the single `type` string. -/
def applyArchitecturalEvolution (s : SynergyState) (e : EvolutionPlan) : SynergyState :=
  if e.type = "synergy_improvement" then improveSynergy s
  else if e.type = "coherence_improvement" then improveCoherence s
  else if e.type = "optimization" then optimizeArchitecture s
  else s

/-- `evolveArchitecture`: one tick of the evolution cycle. -/
def evolveArchitecture (s : SynergyState) (now : ℕ) : SynergyState × List SynEvent :=
  if s.autogenesisEnabled = false then (s, [])
  else
    let evolution := planArchitecturalEvolution s
    if evolution.shouldEvolve then
      let s1 := applyArchitecturalEvolution s evolution
      let s2 := { s1 with architecturalState :=
        { s1.architecturalState with
          evolutionCount := s1.architecturalState.evolutionCount + 1,
          lastEvolution := now } }
      (s2, [SynEvent.architectureEvolution evolution s2.architecturalState])
    else (s, [])

/-! ## Emergent-behavior utility pass -/

/-- `calculateEmergentUtility`: weighted score, clamped to [0,1]. -/
def calculateEmergentUtility (b : EmergentBehavior) (synergyLevel : ℚ) : ℚ :=
  max 0 (min 1 (b.strength * 0.3 + b.stability * 0.3 + b.novelty * 0.2 +
    synergyLevel * 0.2))

/-- Body of the `emergentBehaviors.forEach` in `evaluateEmergentUtility`:
store the recomputed utility, or delete the entry and emit a removal event
when the recomputed score is below 0.3. -/
def evalUtilityStep (synergyLevel : ℚ)
    (acc : List (String × EmergentBehavior) × List SynEvent)
    (e : String × EmergentBehavior) :
    List (String × EmergentBehavior) × List SynEvent :=
  let utilityScore := calculateEmergentUtility e.2 synergyLevel
  if utilityScore < 0.3 then
    (acc.1, acc.2 ++ [SynEvent.emergentBehaviorRemoved e.1])
  else
    (acc.1 ++ [(e.1, { e.2 with utility := utilityScore })], acc.2)

/-- `evaluateEmergentUtility`: one utility re-evaluation pass. -/
def evaluateEmergentUtility (s : SynergyState) : SynergyState × List SynEvent :=
  let r := s.emergentBehaviors.foldl (evalUtilityStep s.architecturalState.synergyLevel)
    ([], [])
  ({ s with emergentBehaviors := r.1 }, r.2)

/-! ## Remaining public synergy API used by the claims -/

def setAutogenesisEnabled (s : SynergyState) (enabled : Bool) :
    SynergyState × List SynEvent :=
  ({ s with autogenesisEnabled := enabled }, [SynEvent.autogenesisChange enabled])

def setSynergyThreshold (s : SynergyState) (threshold : ℚ) : SynergyState :=
  { s with synergyThreshold := max 0 (min 1 threshold) }

def addComponent (s : SynergyState) (c : SynergyComponent) :
    SynergyState × List SynEvent :=
  ({ s with components := mapSet s.components c.id c }, [SynEvent.componentAdded c.id])

def removeComponent (s : SynergyState) (componentId : String) :
    SynergyState × List SynEvent :=
  ({ s with components := mapDelete s.components componentId },
   [SynEvent.componentRemoved componentId])

/-! ## The combined system: the orchestrator exposes `reset`, the synergy
architecture does not have one. -/

structure CogSystem where
  orch : OrchestratorState
  synergy : SynergyState
deriving DecidableEq

/-- The whole system at cold start. -/
def initSystem (now : ℕ) : CogSystem :=
  { orch := initOrchestratorState now, synergy := initSynergyState now }

/-- The public `reset()` of the core: `CognitiveOrchestrator.reset` calls
`initializeCognitiveSystem` (which leaves the configuration flags alone)
and emits `cognitive_reset`; there is no corresponding call into
`SynergyArchitecture` anywhere (its public API has no reset), so the
synergy half of the system is left as is. -/
def systemReset (sys : CogSystem) (now : ℕ) : CogSystem × List OrchEvent :=
  ({ sys with orch := initializeCognitiveSystem sys.orch now },
   [OrchEvent.cognitiveReset])

/-! ## Concrete fixtures used by the claim theorems -/

/-- The test-property input of the spec: a greeting message requiring a
response. -/
def msgHiInput : CogInput :=
  { type := some "message", text := some "Hi there!", dialog := false,
    requiresResponse := true, dialogState := none, turnCount := none }

/-- A bare message input (no dialog flag, no response flag). -/
def msgOnlyInput : CogInput :=
  { type := some "message", text := none, dialog := false,
    requiresResponse := false, dialogState := none, turnCount := none }

def greetingTokens : List String := ["hello", "hi", "greetings"]

/-- Whether a response text contains one of the greeting tokens
(case-insensitively). -/
def containsGreetingToken (s : String) : Bool :=
  greetingTokens.any (fun tok => strIncludes (lowerStr s) tok)

def mkTestMetrics : ComponentMetrics :=
  { throughput := 100, responseTime := 50, accuracy := 0.9,
    resourceUsage := 0.4, synergyContribution := 0.8, emergentProperties := 0.6 }

/-- A highly reliable connection that the synergy-improvement branch would
strengthen. -/
def c1Conn : SynergyConnection :=
  { targetId := "b", connectionType := .data_flow, strength := 0.5,
    bandwidth := 1000, latency := 10, reliability := 0.95 }

def c1Comp : SynergyComponent :=
  { id := "a", name := "A", type := .cognitive, capabilities := [],
    connections := [c1Conn],
    state := { active := true, load := 0.9, efficiency := 0.8,
               adaptationRate := 0.1, lastUpdate := 0, errorCount := 0 },
    metrics := mkTestMetrics }

/-- A state in which both evolution triggers hold: synergy 0.5 < threshold
0.7 and coherence 0.6 < 0.7. -/
def c1State : SynergyState :=
  { components := [("a", c1Comp)], patterns := [], emergentBehaviors := [],
    autonomousAgents := [],
    architecturalState :=
      { seedArchitecturalState 0 with synergyLevel := 0.5, coherence := 0.6 },
    autogenesisEnabled := true, synergyThreshold := 0.7 }

def c2CompHigh : SynergyComponent :=
  { c1Comp with
    id := "hi_load",
    state := { c1Comp.state with load := 0.9 } }

def c2CompLow : SynergyComponent :=
  { c1Comp with
    id := "lo_load",
    state := { c1Comp.state with load := 0.1 } }

/-- A state in which neither evolution trigger holds (synergy 0.8 ≥
threshold 0.7, coherence 0.8 ≥ 0.7) but one component carries more than
1.2× the mean load. -/
def c2State : SynergyState :=
  { components := [("hi_load", c2CompHigh), ("lo_load", c2CompLow)],
    patterns := [], emergentBehaviors := [], autonomousAgents := [],
    architecturalState :=
      { seedArchitecturalState 0 with synergyLevel := 0.8, coherence := 0.8 },
    autogenesisEnabled := true, synergyThreshold := 0.7 }

/-- A behavior whose stored utility has been forced to 0.1 but whose
constituents are strong. -/
def c5Behavior : EmergentBehavior :=
  { id := "b0", name := "forced", description := "forced-low utility",
    manifestation := "m", strength := 0.9, stability := 0.9, novelty := 0.9,
    utility := 0.1, components := [], triggers := [] }

def c5State : SynergyState :=
  { components := [], patterns := [], emergentBehaviors := [("b0", c5Behavior)],
    autonomousAgents := [],
    architecturalState := { seedArchitecturalState 0 with synergyLevel := 0.8 },
    autogenesisEnabled := true, synergyThreshold := 0.7 }

/-- A behavior whose recomputed utility really is below 0.3. -/
def c5LowBehavior : EmergentBehavior :=
  { id := "weak", name := "weak", description := "weak behavior",
    manifestation := "m", strength := 0.1, stability := 0.1, novelty := 0.1,
    utility := 0.9, components := [], triggers := [] }

def c5LowState : SynergyState :=
  { c5State with
    emergentBehaviors := [("weak", c5LowBehavior)],
    architecturalState := { seedArchitecturalState 0 with synergyLevel := 0.1 } }

/-- A system whose synergy half differs from the seeded one (a component
has been removed), used against the reset claim. -/
def resetCounterSystem : CogSystem :=
  { orch := initOrchestratorState 0,
    synergy := (removeComponent (initSynergyState 0) "cognitive_processor").1 }

/-! ## Spec-side decompositions of the utility pass -/

/-- The surviving (utility-refreshed) entries of one utility pass. -/
def evalKeep (synergyLevel : ℚ) (l : List (String × EmergentBehavior)) :
    List (String × EmergentBehavior) :=
  l.filterMap (fun e =>
    if calculateEmergentUtility e.2 synergyLevel < 0.3 then none
    else some (e.1, { e.2 with utility := calculateEmergentUtility e.2 synergyLevel }))

/-- The removal events of one utility pass. -/
def evalRemovals (synergyLevel : ℚ) (l : List (String × EmergentBehavior)) :
    List SynEvent :=
  l.filterMap (fun e =>
    if calculateEmergentUtility e.2 synergyLevel < 0.3 then
      some (SynEvent.emergentBehaviorRemoved e.1)
    else none)

/-! ## Repeated learning (for the history bound) -/

/-- One recorded learning interaction: its input, response and the two
timing readings. -/
structure LearnCall where
  input : CogInput
  resp : CogResponse
  time : ℕ
  now : ℕ
deriving DecidableEq

def learnStep (st : OrchestratorState) (c : LearnCall) : OrchestratorState :=
  learnFromInteraction st c.input c.resp c.time c.now

def runLearns (st : OrchestratorState) (calls : List LearnCall) : OrchestratorState :=
  calls.foldl learnStep st

/-- The adaptation records generated along a run of learning calls, in
chronological order. -/
def producedRecords (st : OrchestratorState) : List LearnCall → List AdaptationRecord
  | [] => []
  | c :: cs =>
    mkAdaptationRecord c.input c.resp (calculateEffectiveness st c.resp c.time) c.now ::
      producedRecords (learnStep st c) cs

/-- A fixed response used to drive the history-bound witness. -/
def c8Resp : CogResponse :=
  { type := "cognitive_response", content := "ok", confidence := 0.5,
    synergyLevel := 0.5, adaptations := [],
    metadata := { cognitiveState := (initOrchestratorState 0).cognitiveState,
                  activePatterns := [], processingPath := processingPathList } }

def c8Call : LearnCall := { input := msgOnlyInput, resp := c8Resp, time := 100, now := 42 }

/-! ## Bounds predicates and the public-operation machine -/

def WFTruth (t : TruthValue) : Prop :=
  0 ≤ t.strength ∧ t.strength ≤ 1 ∧ 0 ≤ t.confidence ∧ t.confidence ≤ 1

def WFAttention (a : AttentionValue) : Prop :=
  0 ≤ a.shortTermImportance ∧ a.shortTermImportance ≤ 1 ∧
  0 ≤ a.longTermImportance ∧ a.longTermImportance ≤ 1 ∧
  0 ≤ a.vlti ∧ a.vlti ≤ 1

def WFNode (n : CognitiveNode) : Prop :=
  WFTruth n.truthValue ∧ WFAttention n.attentionValue

def WFLink (l : CognitiveLink) : Prop := WFTruth l.truthValue

/-- A pattern whose numeric payload respects the data-model ranges. -/
def WFPattern (p : CognitivePattern) : Prop :=
  (0 ≤ p.synergyScore ∧ p.synergyScore ≤ 1) ∧
  (∀ n ∈ p.nodes, WFNode n) ∧ (∀ l ∈ p.links, WFLink l)

/-- The bounds invariant of the orchestrator state: every stored truth
value and attention value in [0,1], the synergy level in [0,1] and the
learning rate in [0.05, 0.2]. -/
def InvCog (st : OrchestratorState) : Prop :=
  (∀ e ∈ st.atomSpace, WFNode e.2) ∧
  (∀ e ∈ st.patternMatchers, WFPattern e.2) ∧
  (0 ≤ st.cognitiveState.synergyLevel ∧ st.cognitiveState.synergyLevel ≤ 1) ∧
  (0.05 ≤ st.cognitiveState.learningRate ∧ st.cognitiveState.learningRate ≤ 0.2)

instance (t : TruthValue) : Decidable (WFTruth t) := by
  unfold WFTruth; infer_instance

instance (a : AttentionValue) : Decidable (WFAttention a) := by
  unfold WFAttention; infer_instance

instance (n : CognitiveNode) : Decidable (WFNode n) := by
  unfold WFNode; infer_instance

instance (l : CognitiveLink) : Decidable (WFLink l) := by
  unfold WFLink; infer_instance

instance (p : CognitivePattern) : Decidable (WFPattern p) := by
  unfold WFPattern; infer_instance

instance (st : OrchestratorState) : Decidable (InvCog st) := by
  unfold InvCog; infer_instance

/-- One public orchestrator operation, with every external nondeterminism
(timing readings, greeting index) made explicit. -/
inductive Op
  | procInput (input : CogInput) (g : Fin 3) (t1 t2 now : ℕ)
  | setAutonomous (enabled : Bool)
  | setLearning (enabled : Bool)
  | setAdaptThreshold (threshold : ℚ)
  | addPattern (p : CognitivePattern)
  | removePattern (patternId : String)
  | resetOp (now : ℕ)

/-- Apply one public operation; collect the response if the operation
produces one. -/
def applyOp (st : OrchestratorState) : Op → OrchestratorState × List CogResponse
  | .procInput input g t1 t2 now =>
    let r := processInput st input g t1 t2 now
    (r.1, [r.2.1])
  | .setAutonomous b => ((setAutonomousMode st b).1, [])
  | .setLearning b => ((setLearningEnabled st b).1, [])
  | .setAdaptThreshold q => (setAdaptationThreshold st q, [])
  | .addPattern p => ((addCognitivePattern st p).1, [])
  | .removePattern patternId => ((removeCognitivePattern st patternId).1, [])
  | .resetOp now => ((resetOrchestrator st now).1, [])

/-- One operation of a public-operation run, threading the state and
accumulating responses. -/
def runStep (acc : OrchestratorState × List CogResponse) (op : Op) :
    OrchestratorState × List CogResponse :=
  let r := applyOp acc.1 op
  (r.1, acc.2 ++ r.2)

/-- Run a sequence of public operations from a state, collecting every
response produced along the way. -/
def runOps (st : OrchestratorState) (ops : List Op) :
    OrchestratorState × List CogResponse :=
  ops.foldl runStep (st, [])

/-- Every response in the list has confidence within [0,1]. -/
def RespBounded (rs : List CogResponse) : Prop :=
  ∀ r ∈ rs, 0 ≤ r.confidence ∧ r.confidence ≤ 1

instance (rs : List CogResponse) : Decidable (RespBounded rs) := by
  unfold RespBounded; infer_instance

/-- An operation is well formed when any pattern it feeds to the system
respects the data-model ranges (the data model declares all truth,
attention and synergy scores to live in [0,1]). -/
def WFOp : Op → Prop
  | .addPattern p => WFPattern p
  | _ => True

instance (op : Op) : Decidable (WFOp op) := by
  cases op <;> unfold WFOp <;> infer_instance

/-- A custom pattern within the data-model ranges, for the invariant
witness. -/
def c7WitnessPattern : CognitivePattern :=
  { id := "custom", name := "Custom", description := "custom pattern",
    nodes := [ { id := "user_input", type := .concept,
                 truthValue := { strength := 0.4, confidence := 0.6 },
                 attentionValue := { shortTermImportance := 0.5,
                                     longTermImportance := 0.5, vlti := 0.5 },
                 relationships := [], timestamp := 0 } ],
    links := [], activationThreshold := 0.1, synergyScore := 0.9 }

def c7WitnessOps : List Op :=
  [ Op.addPattern c7WitnessPattern,
    Op.procInput msgHiInput 0 3 4 5,
    Op.setLearning false,
    Op.procInput msgOnlyInput 1 2 3 6,
    Op.resetOp 9 ]

/-! # Theorems for the claims -/

/-- C6: every call to `processInput` emits exactly one `cognition` event —
the event list of a call is precisely the singleton `cognition` event — and
it is emitted only after the response has been fully assembled: the event
carries the returned (fully assembled) response itself, together with the
cognitive-state snapshot taken after the learning step. -/
theorem processInput_emits_one_cognition (st : OrchestratorState)
    (input : CogInput) (g : Fin 3) (t1 t2 now : ℕ) :
    (processInput st input g t1 t2 now).2.2 =
      [OrchEvent.cognition input (processInput st input g t1 t2 now).2.1
        (processInput st input g t1 t2 now).1.cognitiveState t2] := rfl

/-- C4 counterexample: from a system whose synergy registry lost the
`cognitive_processor` component, `reset()` does not restore the seeded
component registry — the synergy subsystem still has only three components
while a cold start has four, so `reset()` does not reinitialize both
subsystems. -/
theorem reset_does_not_restore_synergy :
    ((systemReset resetCounterSystem 1).1.synergy.components.map Prod.fst) =
      ["behavioral_adapter", "adaptive_learner", "emergent_intelligence"] ∧
    ((initSynergyState 1).components.map Prod.fst) =
      ["cognitive_processor", "behavioral_adapter", "adaptive_learner",
        "emergent_intelligence"] ∧
    ((systemReset resetCounterSystem 1).1.synergy.components.map Prod.fst ≠
      (initSynergyState 1).components.map Prod.fst) := by
  with_unfolding_all decide

/-- C4 amended: `reset()` reinitializes only the reasoning engine, and
only its cognitive core: the cognitive state, the atomSpace and the
pattern map come back exactly as at a cold start (same seeds, fresh
timestamps), while the reasoning-engine configuration flags
(autonomousMode, learningEnabled, adaptationThreshold) are preserved and
the synergy architecture (which has no reset in its public API) keeps its
current state unchanged. -/
theorem reset_reinitializes_orchestrator_only (sys : CogSystem) (now : ℕ) :
    (systemReset sys now).1.orch.cognitiveState =
      (initOrchestratorState now).cognitiveState ∧
    (systemReset sys now).1.orch.atomSpace =
      (initOrchestratorState now).atomSpace ∧
    (systemReset sys now).1.orch.patternMatchers =
      (initOrchestratorState now).patternMatchers ∧
    (systemReset sys now).1.orch.autonomousMode = sys.orch.autonomousMode ∧
    (systemReset sys now).1.orch.learningEnabled = sys.orch.learningEnabled ∧
    (systemReset sys now).1.orch.adaptationThreshold =
      sys.orch.adaptationThreshold ∧
    (systemReset sys now).1.synergy = sys.synergy :=
  ⟨rfl, rfl, rfl, rfl, rfl, rfl, rfl⟩

set_option maxHeartbeats 1000000 in
set_option maxRecDepth 100000 in
/-- C1 counterexample: in a state with autogenesis enabled where both
synergyLevel < synergyThreshold and coherence < 0.7 hold, the evolution
tick leaves a reliability-0.95 connection completely unchanged (strength
stays 0.5 instead of becoming 0.55, bandwidth stays 1000), so the tick does
not apply both marked adjustments. -/
theorem evolve_both_triggers_skips_synergy_improvement :
    c1State.autogenesisEnabled = true ∧
    c1State.architecturalState.synergyLevel < c1State.synergyThreshold ∧
    c1State.architecturalState.coherence < 0.7 ∧
    (((evolveArchitecture c1State 7).1.components.map (fun e =>
      e.2.connections.map (fun c => (c.strength, c.bandwidth)))) =
      [[((1 : ℚ)/2, (1000 : ℚ))]]) ∧
    ((1 : ℚ)/2 ≠ 1/2 + 0.05) := by
  with_unfolding_all decide

/-- C1 amended: when autogenesis is enabled and both synergyLevel <
synergyThreshold and coherence < 0.7 hold, the tick applies only the
coherence adjustment — every component gains +0.02 efficiency (capped at 1)
and loses 0.01 adaptationRate (floored at 0.05), connections and all other
component fields unchanged — because the coherence branch overwrites the
plan type before dispatch; the evolution counter still increments. -/
theorem evolve_both_triggers_applies_coherence_only (s : SynergyState) (now : ℕ)
    (hag : s.autogenesisEnabled = true)
    (hsyn : s.architecturalState.synergyLevel < s.synergyThreshold)
    (hcoh : s.architecturalState.coherence < 0.7) :
    (evolveArchitecture s now).1.components = s.components.map (fun e =>
      (e.1, { e.2 with state :=
        { e.2.state with
          efficiency := min 1 (e.2.state.efficiency + 0.02),
          adaptationRate := max 0.05 (e.2.state.adaptationRate - 0.01) } })) ∧
    (evolveArchitecture s now).1.architecturalState.evolutionCount =
      s.architecturalState.evolutionCount + 1 := by
  unfold evolveArchitecture planArchitecturalEvolution applyArchitecturalEvolution
    improveCoherence
  simp [hag, hsyn, hcoh]

set_option maxHeartbeats 1000000 in
set_option maxRecDepth 100000 in
/-- C1 witness: the amended theorem applied at the concrete two-trigger
state. -/
theorem evolve_both_triggers_witness :
    (evolveArchitecture c1State 7).1.components = c1State.components.map (fun e =>
      (e.1, { e.2 with state :=
        { e.2.state with
          efficiency := min 1 (e.2.state.efficiency + 0.02),
          adaptationRate := max 0.05 (e.2.state.adaptationRate - 0.01) } })) ∧
    (evolveArchitecture c1State 7).1.architecturalState.evolutionCount =
      c1State.architecturalState.evolutionCount + 1 :=
  evolve_both_triggers_applies_coherence_only c1State 7 rfl
    (by with_unfolding_all decide) (by with_unfolding_all decide)

set_option maxHeartbeats 1000000 in
set_option maxRecDepth 100000 in
/-- C2 counterexample: with autogenesis enabled, synergyLevel ≥ threshold
and coherence ≥ 0.7, a component loaded at 0.9 — more than 1.2× the mean
load 0.5 — keeps its load after the evolution tick (0.9, not 0.8): the
generic load-rebalancing pass is not applied. -/
theorem evolve_no_trigger_keeps_overload :
    c2State.autogenesisEnabled = true ∧
    (¬ c2State.architecturalState.synergyLevel < c2State.synergyThreshold) ∧
    (¬ c2State.architecturalState.coherence < 0.7) ∧
    ((9 : ℚ)/10 > 1.2 * (((9 : ℚ)/10 + 1/10) / 2)) ∧
    (((evolveArchitecture c2State 11).1.components.map (fun e => e.2.state.load)) =
      [(9 : ℚ)/10, (1 : ℚ)/10]) ∧
    ((9 : ℚ)/10 ≠ 9/10 - 0.1) := by
  with_unfolding_all decide

/-- C2 amended: when autogenesis is enabled but neither synergyLevel <
synergyThreshold nor coherence < 0.7 holds, the evolution tick does nothing
at all — the plan has shouldEvolve = false, so no rebalancing (or any other
change) is applied and no event is emitted. -/
theorem evolve_no_trigger_no_change (s : SynergyState) (now : ℕ)
    (hag : s.autogenesisEnabled = true)
    (hsyn : ¬ s.architecturalState.synergyLevel < s.synergyThreshold)
    (hcoh : ¬ s.architecturalState.coherence < 0.7) :
    evolveArchitecture s now = (s, []) := by
  unfold evolveArchitecture planArchitecturalEvolution
  simp [hag, hsyn, hcoh]

set_option maxHeartbeats 1000000 in
set_option maxRecDepth 100000 in
/-- C2 witness: the amended theorem applied at the concrete no-trigger
state with an overloaded component. -/
theorem evolve_no_trigger_witness :
    evolveArchitecture c2State 11 = (c2State, []) :=
  evolve_no_trigger_no_change c2State 11 rfl
    (by with_unfolding_all decide) (by with_unfolding_all decide)

set_option maxHeartbeats 1000000 in
set_option maxRecDepth 100000 in
/-- C5 counterexample: a behavior whose stored utility has been forced to
0.1 (< 0.3) but whose strength, stability and novelty are high survives the
next utility-evaluation pass (its utility is recomputed to 0.82) and no
removal event fires: forcing the stored utility below 0.3 does not cause
removal. -/
theorem utility_pass_ignores_forced_utility :
    c5Behavior.utility < 0.3 ∧
    ((evaluateEmergentUtility c5State).1.emergentBehaviors.map Prod.fst) = ["b0"] ∧
    (evaluateEmergentUtility c5State).2 = [] := by
  with_unfolding_all decide

theorem evalUtility_foldl (syn : ℚ) (l : List (String × EmergentBehavior))
    (acc1 : List (String × EmergentBehavior)) (acc2 : List SynEvent) :
    l.foldl (evalUtilityStep syn) (acc1, acc2) =
      (acc1 ++ evalKeep syn l, acc2 ++ evalRemovals syn l) := by
  induction l generalizing acc1 acc2 with
  | nil => simp [evalKeep, evalRemovals]
  | cons a t ih =>
    by_cases h : calculateEmergentUtility a.2 syn < 0.3 <;>
      simp [evalUtilityStep, evalKeep, evalRemovals, List.filterMap_cons, h, ih]

theorem evaluateEmergentUtility_eq (s : SynergyState) :
    evaluateEmergentUtility s =
      ({ s with emergentBehaviors :=
          evalKeep s.architecturalState.synergyLevel s.emergentBehaviors },
       evalRemovals s.architecturalState.synergyLevel s.emergentBehaviors) := by
  unfold evaluateEmergentUtility
  rw [evalUtility_foldl]
  simp

theorem keys_nodup_val_unique {α : Type} {l : List (String × α)}
    (h : (l.map Prod.fst).Nodup) {k : String} {x y : α}
    (hx : (k, x) ∈ l) (hy : (k, y) ∈ l) : x = y := by
  induction l with
  | nil => cases hx
  | cons a t ih =>
    simp only [List.map_cons, List.nodup_cons] at h
    rcases List.mem_cons.mp hx with hx1 | hx1 <;>
      rcases List.mem_cons.mp hy with hy1 | hy1
    · rw [← hx1] at hy1
      exact ((Prod.mk.injEq _ _ _ _).mp hy1.symm).2
    · exact absurd (List.mem_map_of_mem Prod.fst hy1)
        (by rw [← hx1] at h; exact h.1)
    · exact absurd (List.mem_map_of_mem Prod.fst hx1)
        (by rw [← hy1] at h; exact h.1)
    · exact ih h.2 hx1 hy1

theorem evalRemovals_cons (syn : ℚ) (a : String × EmergentBehavior)
    (t : List (String × EmergentBehavior)) :
    evalRemovals syn (a :: t) =
      (if calculateEmergentUtility a.2 syn < 0.3 then
        [SynEvent.emergentBehaviorRemoved a.1] else []) ++ evalRemovals syn t := by
  by_cases h : calculateEmergentUtility a.2 syn < 0.3 <;>
    simp [evalRemovals, List.filterMap_cons, h]

theorem evalKeep_cons (syn : ℚ) (a : String × EmergentBehavior)
    (t : List (String × EmergentBehavior)) :
    evalKeep syn (a :: t) =
      (if calculateEmergentUtility a.2 syn < 0.3 then []
       else [(a.1, { a.2 with utility := calculateEmergentUtility a.2 syn })]) ++
        evalKeep syn t := by
  by_cases h : calculateEmergentUtility a.2 syn < 0.3 <;>
    simp [evalKeep, List.filterMap_cons, h]

theorem evalRemovals_count_zero (syn : ℚ) (l : List (String × EmergentBehavior))
    (behaviorId : String) (hnot : behaviorId ∉ l.map Prod.fst) :
    (evalRemovals syn l).count (SynEvent.emergentBehaviorRemoved behaviorId) = 0 := by
  induction l with
  | nil => simp [evalRemovals]
  | cons a t ih =>
    simp only [List.map_cons, List.mem_cons, not_or] at hnot
    rw [evalRemovals_cons]
    by_cases h : calculateEmergentUtility a.2 syn < 0.3 <;>
      simp [h, List.count_cons, List.count_append, ih hnot.2, hnot.1,
        Ne.symm hnot.1]

theorem evalRemovals_count_one (syn : ℚ) (l : List (String × EmergentBehavior))
    (behaviorId : String) (b : EmergentBehavior)
    (hnd : (l.map Prod.fst).Nodup) (hmem : (behaviorId, b) ∈ l)
    (hlow : calculateEmergentUtility b syn < 0.3) :
    (evalRemovals syn l).count (SynEvent.emergentBehaviorRemoved behaviorId) = 1 := by
  induction l with
  | nil => cases hmem
  | cons a t ih =>
    simp only [List.map_cons, List.nodup_cons] at hnd
    rw [evalRemovals_cons]
    rcases List.mem_cons.mp hmem with h1 | h1
    · rw [← h1] at hnd ⊢
      have hz : (evalRemovals syn t).count
          (SynEvent.emergentBehaviorRemoved behaviorId) = 0 :=
        evalRemovals_count_zero syn t behaviorId hnd.1
      simp [hlow, List.count_cons, List.count_append, hz]
    · have hne : a.1 ≠ behaviorId := by
        intro he
        exact hnd.1 (he ▸ List.mem_map_of_mem Prod.fst h1)
      by_cases h : calculateEmergentUtility a.2 syn < 0.3 <;>
        simp [h, List.count_cons, List.count_append, ih hnd.2 h1, hne,
          Ne.symm hne]

/-- C5 amended: a behavior is deleted on the utility-evaluation pass —
with exactly one `emergent_behavior_removed` event for it — precisely when
its recomputed utility 0.3·strength + 0.3·stability + 0.2·novelty +
0.2·synergyLevel (clamped to [0,1]) is below 0.3; the stored (e.g. forced)
utility value is overwritten by the recomputation and has no effect on
deletion. -/
theorem utility_pass_deletes_low_exactly_once (s : SynergyState)
    (behaviorId : String) (b : EmergentBehavior)
    (hnd : (s.emergentBehaviors.map Prod.fst).Nodup)
    (hmem : (behaviorId, b) ∈ s.emergentBehaviors)
    (hlow : calculateEmergentUtility b s.architecturalState.synergyLevel < 0.3) :
    behaviorId ∉ ((evaluateEmergentUtility s).1.emergentBehaviors.map Prod.fst) ∧
    ((evaluateEmergentUtility s).2.count
      (SynEvent.emergentBehaviorRemoved behaviorId) = 1) := by
  rw [evaluateEmergentUtility_eq]
  constructor
  · intro hin
    rcases List.mem_map.mp hin with ⟨e, he, hfst⟩
    rcases List.mem_filterMap.mp he with ⟨a, ha, hfa⟩
    by_cases h : calculateEmergentUtility a.2 s.architecturalState.synergyLevel < 0.3
    · rw [if_pos h] at hfa; cases hfa
    · rw [if_neg h] at hfa
      have hfa2 := Option.some.inj hfa
      have ha1 : a.1 = behaviorId := by
        have := congrArg Prod.fst hfa2
        simpa [hfst] using this
      have hab : a.2 = b := by
        refine keys_nodup_val_unique hnd ?_ hmem
        rw [← ha1]; exact ha
      rw [hab] at h
      exact h hlow
  · exact evalRemovals_count_one _ _ behaviorId b hnd hmem hlow

set_option maxHeartbeats 1000000 in
set_option maxRecDepth 100000 in
/-- C5 witness: the amended theorem applied to a concrete weak behavior
(recomputed utility 0.1) in a low-synergy state. -/
theorem utility_pass_deletes_low_witness :
    "weak" ∉ ((evaluateEmergentUtility c5LowState).1.emergentBehaviors.map Prod.fst) ∧
    ((evaluateEmergentUtility c5LowState).2.count
      (SynEvent.emergentBehaviorRemoved "weak") = 1) :=
  utility_pass_deletes_low_exactly_once c5LowState "weak" c5LowBehavior
    (by with_unfolding_all decide) (by with_unfolding_all decide)
    (by with_unfolding_all decide)

set_option maxHeartbeats 4000000 in
set_option maxRecDepth 200000 in
/-- C9: for the input type "message", text "Hi there!", requiresResponse
true, given to `processInput` from the seeded initial state, the returned
response content contains a greeting token (whichever of the three seeded
greetings the random index selects) and the response confidence 397/720 is
strictly greater than 0.5. -/
theorem greeting_input_confident_greeting (g : Fin 3) :
    containsGreetingToken
      (processInput (initOrchestratorState 0) msgHiInput g 3 4 5).2.1.content = true ∧
    (processInput (initOrchestratorState 0) msgHiInput g 3 4 5).2.1.confidence >
      1/2 := by
  fin_cases g <;> exact ⟨by with_unfolding_all decide, by with_unfolding_all decide⟩

set_option maxHeartbeats 1000000 in
set_option maxRecDepth 100000 in
/-- C3 counterexample: for a message input at the seeded initial state, the
selected node id `user_input` is added to the active set, but the atomSpace
after the update is still empty — there is no node whose short-term
attention was (or could be) increased, because the atomSpace is never
populated by any code path. -/
theorem update_state_adds_active_but_no_node_updated :
    "user_input" ∈ findRelevantNodes msgOnlyInput ∧
    "user_input" ∈ (updateCognitiveState (initOrchestratorState 0)
      msgOnlyInput).cognitiveState.activeNodes ∧
    (updateCognitiveState (initOrchestratorState 0) msgOnlyInput).atomSpace = [] := by
  refine ⟨by decide, by with_unfolding_all decide, by with_unfolding_all decide⟩

theorem mapGet_mapUpdate {α : Type} (m : List (String × α)) (k id : String)
    (f : α → α) :
    mapGet (mapUpdate m k f) id =
      if id = k then Option.map f (mapGet m id) else mapGet m id := by
  induction m with
  | nil => simp [mapGet, mapUpdate]
  | cons e es ih =>
    simp only [mapUpdate, List.map_cons]
    by_cases h1 : e.1 = k
    · rw [if_pos h1]
      by_cases h2 : id = k
      · subst h2
        simp [mapGet, h1]
      · have h3 : ¬ e.1 = id := fun he => h2 (he ▸ h1)
        have ih2 := ih
        unfold mapUpdate at ih2
        simp [mapGet, h2, h3, ih2]
    · rw [if_neg h1]
      by_cases h2 : e.1 = id
      · have h3 : ¬ id = k := fun he => h1 (h2.symm ▸ he)
        simp [mapGet, h2, h3]
      · have ih2 := ih
        unfold mapUpdate at ih2
        simp [mapGet, h2, ih2]

theorem setAdd_mem (s : List String) (k x : String) :
    x ∈ setAdd s k ↔ x ∈ s ∨ x = k := by
  by_cases h : k ∈ s <;> simp [setAdd, h]
  exact fun hx => hx ▸ h

theorem applyRelevant_cons (st : OrchestratorState) (a : String)
    (t : List String) :
    applyRelevant st (a :: t) = applyRelevant (relevantStep st a) t := rfl

theorem applyRelevant_activeNodes (ids : List String) (st : OrchestratorState)
    (nodeId : String)
    (h : nodeId ∈ ids ∨ nodeId ∈ st.cognitiveState.activeNodes) :
    nodeId ∈ (applyRelevant st ids).cognitiveState.activeNodes := by
  induction ids generalizing st with
  | nil =>
    rcases h with h | h
    · cases h
    · exact h
  | cons a t ih =>
    rw [applyRelevant_cons]
    refine ih _ ?_
    have hact : (relevantStep st a).cognitiveState.activeNodes =
        setAdd st.cognitiveState.activeNodes a := rfl
    rcases h with h | h
    · rcases List.mem_cons.mp h with h1 | h1
      · right; rw [hact]; exact (setAdd_mem _ _ _).mpr (Or.inr h1)
      · left; exact h1
    · right; rw [hact]; exact (setAdd_mem _ _ _).mpr (Or.inl h)

theorem applyRelevant_atom (ids : List String) (st : OrchestratorState)
    (hnd : ids.Nodup) (id : String) :
    mapGet (applyRelevant st ids).atomSpace id =
      if id ∈ ids then Option.map bumpShortTerm (mapGet st.atomSpace id)
      else mapGet st.atomSpace id := by
  induction ids generalizing st with
  | nil => simp [applyRelevant]
  | cons a t ih =>
    have hnd2 := List.nodup_cons.mp hnd
    rw [applyRelevant_cons, ih _ hnd2.2]
    have hatom : (relevantStep st a).atomSpace =
        mapUpdate st.atomSpace a bumpShortTerm := rfl
    rw [hatom, mapGet_mapUpdate]
    by_cases h1 : id ∈ t <;> by_cases h2 : id = a <;>
      simp [h1, h2, List.mem_cons, hnd2.1]

theorem findRelevantNodes_nodup (input : CogInput) :
    (findRelevantNodes input).Nodup := by
  unfold findRelevantNodes
  split_ifs <;> decide

/-- C3 amended: each selected node id is added to the active set, and the
+0.1 short-term-attention bump (clamped to 1.0) is applied to a selected id
only when the atomSpace actually holds a node under that id — ids absent
from the atomSpace are skipped, and since the atomSpace is never populated
(it is empty from initialization and no code path inserts into it), in
every reachable state no attention value actually changes. -/
theorem update_marks_active_bumps_only_present (st : OrchestratorState)
    (input : CogInput) (nodeId id : String)
    (hmem : nodeId ∈ findRelevantNodes input) :
    nodeId ∈ (updateCognitiveState st input).cognitiveState.activeNodes ∧
    mapGet (updateCognitiveState st input).atomSpace id =
      (if id ∈ findRelevantNodes input
        then Option.map bumpShortTerm (mapGet st.atomSpace id)
        else mapGet st.atomSpace id) := by
  have h1 : (updateCognitiveState st input).cognitiveState.activeNodes =
      (applyRelevant st (findRelevantNodes input)).cognitiveState.activeNodes := rfl
  have h2 : (updateCognitiveState st input).atomSpace =
      (applyRelevant st (findRelevantNodes input)).atomSpace := rfl
  rw [h1, h2]
  exact ⟨applyRelevant_activeNodes _ _ _ (Or.inl hmem),
    applyRelevant_atom _ _ (findRelevantNodes_nodup input) _⟩

set_option maxHeartbeats 1000000 in
set_option maxRecDepth 100000 in
/-- C3 witness: the amended theorem at the seeded initial state with the
greeting message input, for the selected id `user_input`. -/
theorem update_marks_active_witness :
    "user_input" ∈ (updateCognitiveState (initOrchestratorState 0)
      msgHiInput).cognitiveState.activeNodes ∧
    mapGet (updateCognitiveState (initOrchestratorState 0) msgHiInput).atomSpace
      "user_input" =
      (if "user_input" ∈ findRelevantNodes msgHiInput
        then Option.map bumpShortTerm
          (mapGet (initOrchestratorState 0).atomSpace "user_input")
        else mapGet (initOrchestratorState 0).atomSpace "user_input") :=
  update_marks_active_bumps_only_present (initOrchestratorState 0) msgHiInput
    "user_input" "user_input" (by decide)

theorem foldl_add_effectiveness (l : List AdaptationRecord) (a : ℚ) :
    l.foldl (fun sum r => sum + r.effectiveness) a =
      a + (l.map AdaptationRecord.effectiveness).sum := by
  induction l generalizing a with
  | nil => simp
  | cons r t ih => simp [ih, add_assoc]

theorem drop_length_sub_eq_reverse_take {α : Type} (l : List α) (n : ℕ) :
    l.drop (l.length - n) = (l.reverse.take n).reverse := by
  induction l with
  | nil => simp
  | cons a t ih =>
    by_cases h : t.length < n
    · have h1 : (a :: t).length ≤ n := by simp; omega
      rw [Nat.sub_eq_zero_of_le h1, List.drop_zero,
        List.take_of_length_le (by simpa using h1), List.reverse_reverse]
    · push_neg at h
      have hlen : (a :: t).length - n = (t.length - n) + 1 := by
        simp [List.length_cons]; omega
      rw [hlen, List.drop_succ_cons, ih, List.reverse_cons,
        List.take_append_of_le_length (by simpa using h)]

/-- C10: `getCognitiveStatistics` reports averageEffectiveness 0.5 exactly
when the adaptation history is empty; otherwise it reports the arithmetic
mean (sum divided by count) of the effectiveness of the at most 20 most
recent adaptation records. -/
theorem avg_effectiveness_mean_of_recent (st : OrchestratorState) :
    (getCognitiveStatistics st).averageEffectiveness =
      if st.cognitiveState.adaptationHistory = [] then 0.5
      else
        ((st.cognitiveState.adaptationHistory.reverse.take 20).map
          AdaptationRecord.effectiveness).sum /
        ((st.cognitiveState.adaptationHistory.reverse.take 20).length : ℚ) := by
  have hst : (getCognitiveStatistics st).averageEffectiveness =
      calculateAverageEffectiveness st := rfl
  rw [hst]
  unfold calculateAverageEffectiveness
  by_cases h : st.cognitiveState.adaptationHistory = []
  · simp [h]
  · rw [if_neg (by simpa [List.length_eq_zero] using h), if_neg h]
    simp only [foldl_add_effectiveness, drop_length_sub_eq_reverse_take,
      List.map_reverse, List.sum_reverse, List.length_reverse, zero_add]

theorem pushHistory_eq (h : List AdaptationRecord) (r : AdaptationRecord) :
    pushHistory h r = (h ++ [r]).drop ((h ++ [r]).length - 100) := by
  unfold pushHistory
  by_cases hl : (h ++ [r]).length > 100
  · rw [if_pos hl]
  · rw [if_neg hl, Nat.sub_eq_zero_of_le (by omega), List.drop_zero]

theorem pushHistory_length_le (h : List AdaptationRecord) (r : AdaptationRecord)
    (hle : h.length ≤ 100) : (pushHistory h r).length ≤ 100 := by
  rw [pushHistory_eq]
  simp [List.length_drop]
  omega

theorem learnStep_history (st : OrchestratorState) (c : LearnCall) :
    (learnStep st c).cognitiveState.adaptationHistory =
      pushHistory st.cognitiveState.adaptationHistory
        (mkAdaptationRecord c.input c.resp
          (calculateEffectiveness st c.resp c.time) c.now) := rfl

theorem producedRecords_length (calls : List LearnCall) (st : OrchestratorState) :
    (producedRecords st calls).length = calls.length := by
  induction calls generalizing st with
  | nil => rfl
  | cons c cs ih => simp [producedRecords, ih]

set_option maxRecDepth 10000 in
theorem runLearns_history (calls : List LearnCall) (st : OrchestratorState)
    (hle : st.cognitiveState.adaptationHistory.length ≤ 100) :
    (runLearns st calls).cognitiveState.adaptationHistory =
      (st.cognitiveState.adaptationHistory ++ producedRecords st calls).drop
        ((st.cognitiveState.adaptationHistory ++
          producedRecords st calls).length - 100) := by
  induction calls generalizing st with
  | nil =>
    have h0 : runLearns st [] = st := rfl
    rw [h0]
    simp only [producedRecords, List.append_nil]
    rw [Nat.sub_eq_zero_of_le hle, List.drop_zero]
  | cons c cs ih =>
    have hrl : runLearns st (c :: cs) = runLearns (learnStep st c) cs := rfl
    have hple : (learnStep st c).cognitiveState.adaptationHistory.length ≤ 100 := by
      rw [learnStep_history]
      exact pushHistory_length_le _ _ hle
    rw [hrl, ih _ hple, learnStep_history, pushHistory_eq]
    have hd : (st.cognitiveState.adaptationHistory ++
        [mkAdaptationRecord c.input c.resp
          (calculateEffectiveness st c.resp c.time) c.now]).length - 100 ≤
        (st.cognitiveState.adaptationHistory ++
        [mkAdaptationRecord c.input c.resp
          (calculateEffectiveness st c.resp c.time) c.now]).length := by omega
    rw [← List.drop_append_of_le_length hd, List.drop_drop]
    have hrec : producedRecords st (c :: cs) =
        mkAdaptationRecord c.input c.resp
          (calculateEffectiveness st c.resp c.time) c.now ::
          producedRecords (learnStep st c) cs := rfl
    rw [hrec, ← List.singleton_append, ← List.append_assoc]
    congr 1
    · simp only [List.length_append, List.length_drop, List.length_singleton,
        List.length_cons, List.length_nil]
      omega
    · simp

/-- C8: after 101 or more adaptation records have been recorded through the
learning path from an empty history, the stored adaptation history has
length exactly 100 and consists of the 100 most recent generated records in
chronological order (the suffix of the generated record sequence). -/
theorem history_bound_after_101 (st : OrchestratorState) (calls : List LearnCall)
    (hlen : 101 ≤ calls.length)
    (hempty : st.cognitiveState.adaptationHistory = []) :
    (runLearns st calls).cognitiveState.adaptationHistory.length = 100 ∧
    (runLearns st calls).cognitiveState.adaptationHistory =
      (producedRecords st calls).drop
        ((producedRecords st calls).length - 100) := by
  have hrl := runLearns_history calls st (by simp [hempty])
  rw [hempty, List.nil_append] at hrl
  have hplen := producedRecords_length calls st
  refine ⟨?_, hrl⟩
  rw [hrl]
  simp only [List.length_drop]
  omega

set_option maxRecDepth 10000 in
/-- C8 witness: the history-bound theorem applied to 101 identical learning
calls from the seeded initial state. -/
theorem history_bound_witness :
    (runLearns (initOrchestratorState 0)
      (List.replicate 101 c8Call)).cognitiveState.adaptationHistory.length = 100 ∧
    (runLearns (initOrchestratorState 0)
      (List.replicate 101 c8Call)).cognitiveState.adaptationHistory =
      (producedRecords (initOrchestratorState 0) (List.replicate 101 c8Call)).drop
        ((producedRecords (initOrchestratorState 0)
          (List.replicate 101 c8Call)).length - 100) :=
  history_bound_after_101 (initOrchestratorState 0) (List.replicate 101 c8Call)
    (by simp) rfl

theorem activation_fold_bounds (active : List String)
    (nodes : List CognitiveNode) (hp : ∀ n ∈ nodes, WFNode n) (acc : ℚ × ℕ)
    (h0 : 0 ≤ acc.1) (h1 : acc.1 ≤ (acc.2 : ℚ)) :
    0 ≤ (nodes.foldl (activationStep active) acc).1 ∧
    (nodes.foldl (activationStep active) acc).1 ≤
      ((nodes.foldl (activationStep active) acc).2 : ℚ) := by
  induction nodes generalizing acc with
  | nil => exact ⟨h0, h1⟩
  | cons n t ih =>
    rw [List.foldl_cons]
    have hn := hp n (List.mem_cons_self n t)
    obtain ⟨⟨hs0, hs1, hc0, hc1⟩, _⟩ := hn
    refine ih (fun m hm => hp m (List.mem_cons_of_mem _ hm)) _ ?_ ?_ <;>
      unfold activationStep <;> split
    · have := mul_nonneg hs0 hc0
      simp only
      linarith
    · exact h0
    · have hle1 : n.truthValue.strength * n.truthValue.confidence ≤ 1 :=
        mul_le_one₀ hs1 hc0 hc1
      simp only
      push_cast
      linarith
    · exact h1

theorem calculatePatternActivation_bounds (st : OrchestratorState)
    (p : CognitivePattern) (hp : ∀ n ∈ p.nodes, WFNode n) :
    0 ≤ calculatePatternActivation st p ∧ calculatePatternActivation st p ≤ 1 := by
  unfold calculatePatternActivation
  have h := activation_fold_bounds st.cognitiveState.activeNodes p.nodes hp
    ((0 : ℚ), (0 : ℕ)) (le_refl 0) (by simp)
  dsimp only
  split
  · rename_i hpos
    constructor
    · exact div_nonneg h.1 (by positivity)
    · rw [div_le_one (by exact_mod_cast hpos)]
      exact h.2
  · norm_num

theorem synergy_fold_bounds (st : OrchestratorState)
    (pats : List (String × CognitivePattern))
    (hp : ∀ e ∈ pats, WFPattern e.2) (acc : ℚ × ℕ)
    (h0 : 0 ≤ acc.1) (h1 : acc.1 ≤ (acc.2 : ℚ)) :
    0 ≤ (pats.foldl (synergyStep st) acc).1 ∧
    (pats.foldl (synergyStep st) acc).1 ≤
      ((pats.foldl (synergyStep st) acc).2 : ℚ) := by
  induction pats generalizing acc with
  | nil => exact ⟨h0, h1⟩
  | cons e t ih =>
    rw [List.foldl_cons]
    obtain ⟨⟨hsc0, hsc1⟩, hnodes, _⟩ := hp e (List.mem_cons_self e t)
    have hact := calculatePatternActivation_bounds st e.2 hnodes
    refine ih (fun m hm => hp m (List.mem_cons_of_mem _ hm)) _ ?_ ?_ <;>
      unfold synergyStep <;> dsimp only <;> split
    · have := mul_nonneg hsc0 hact.1
      simp only
      linarith
    · exact h0
    · have hle1 : e.2.synergyScore * calculatePatternActivation st e.2 ≤ 1 :=
        mul_le_one₀ hsc1 hact.1 hact.2
      simp only
      push_cast
      linarith
    · exact h1

theorem computeSynergyLevel_bounds (st : OrchestratorState)
    (hp : ∀ e ∈ st.patternMatchers, WFPattern e.2) :
    0 ≤ computeSynergyLevel st ∧ computeSynergyLevel st ≤ 1 := by
  unfold computeSynergyLevel
  have h := synergy_fold_bounds st st.patternMatchers hp ((0 : ℚ), (0 : ℕ))
    (le_refl 0) (by simp)
  dsimp only
  split
  · rename_i hpos
    constructor
    · exact div_nonneg h.1 (by positivity)
    · rw [div_le_one (by exact_mod_cast hpos)]
      exact h.2
  · norm_num

theorem bumpShortTerm_WF (n : CognitiveNode) (h : WFNode n) :
    WFNode (bumpShortTerm n) := by
  obtain ⟨ht, ha⟩ := h
  obtain ⟨ha1, ha2, ha3, ha4, ha5, ha6⟩ := ha
  exact ⟨ht, ⟨le_min (by norm_num) (by linarith), min_le_left _ _,
    ha3, ha4, ha5, ha6⟩⟩

theorem learnNodeUpdate_WF (effectiveness adjustment : ℚ) (n : CognitiveNode)
    (h : WFNode n) : WFNode (learnNodeUpdate effectiveness adjustment n) := by
  obtain ⟨_, ha1, ha2, ha3, ha4, ha5, ha6⟩ := h
  unfold learnNodeUpdate
  have htv : WFTruth
      { strength := max 0 (min 1 (n.truthValue.strength + adjustment)),
        confidence := max 0 (min 1 (n.truthValue.confidence + adjustment * 0.5)) } :=
    ⟨le_max_left _ _, max_le (by norm_num) (min_le_left _ _),
     le_max_left _ _, max_le (by norm_num) (min_le_left _ _)⟩
  split
  · exact ⟨htv, ⟨ha1, ha2, le_min (by norm_num) (by linarith),
      min_le_left _ _, ha5, ha6⟩⟩
  · exact ⟨htv, ⟨ha1, ha2, ha3, ha4, ha5, ha6⟩⟩

theorem mapUpdate_forall {α : Type} (m : List (String × α)) (k : String)
    (f : α → α) (P : α → Prop) (h : ∀ e ∈ m, P e.2)
    (hf : ∀ a, P a → P (f a)) : ∀ e ∈ mapUpdate m k f, P e.2 := by
  intro e he
  unfold mapUpdate at he
  rcases List.mem_map.mp he with ⟨a, ha, hae⟩
  by_cases h1 : a.1 = k
  · rw [if_pos h1] at hae
    rw [← hae]
    exact hf _ (h a ha)
  · rw [if_neg h1] at hae
    rw [← hae]
    exact h a ha

theorem mapSet_forall {α : Type} (m : List (String × α)) (k : String) (v : α)
    (P : α → Prop) (h : ∀ e ∈ m, P e.2) (hv : P v) :
    ∀ e ∈ mapSet m k v, P e.2 := by
  induction m with
  | nil =>
    intro e he
    unfold mapSet at he
    rcases List.mem_singleton.mp he with rfl
    exact hv
  | cons a t ih =>
    intro e he
    unfold mapSet at he
    by_cases h1 : a.1 = k
    · rw [if_pos h1] at he
      rcases List.mem_cons.mp he with rfl | h2
      · exact hv
      · exact h e (List.mem_cons_of_mem _ h2)
    · rw [if_neg h1] at he
      rcases List.mem_cons.mp he with rfl | h2
      · exact h e (List.mem_cons_self _ _)
      · exact ih (fun x hx => h x (List.mem_cons_of_mem _ hx)) e h2

theorem mapDelete_forall {α : Type} (m : List (String × α)) (k : String)
    (P : α → Prop) (h : ∀ e ∈ m, P e.2) : ∀ e ∈ mapDelete m k, P e.2 :=
  fun e he => h e (List.mem_of_mem_filter he)

theorem mapGet_mem {α : Type} (m : List (String × α)) (k : String) (v : α)
    (h : mapGet m k = some v) : ∃ e ∈ m, e.2 = v := by
  induction m with
  | nil => cases h
  | cons e es ih =>
    unfold mapGet at h
    by_cases h1 : e.1 = k
    · rw [if_pos h1] at h
      exact ⟨e, List.mem_cons_self _ _, Option.some.inj h⟩
    · rw [if_neg h1] at h
      rcases ih h with ⟨a, ha, hv⟩
      exact ⟨a, List.mem_cons_of_mem _ ha, hv⟩

theorem foldl_mapUpdate_forall {α : Type} (ids : List String)
    (m : List (String × α)) (f : α → α) (P : α → Prop)
    (h : ∀ e ∈ m, P e.2) (hf : ∀ a, P a → P (f a)) :
    ∀ e ∈ ids.foldl (fun m' nodeId => mapUpdate m' nodeId f) m, P e.2 := by
  induction ids generalizing m with
  | nil => exact h
  | cons a t ih =>
    rw [List.foldl_cons]
    exact ih _ (mapUpdate_forall m a f P h hf)

theorem applyRelevant_frame (ids : List String) (st : OrchestratorState) :
    (applyRelevant st ids).patternMatchers = st.patternMatchers ∧
    (applyRelevant st ids).cognitiveState.learningRate =
      st.cognitiveState.learningRate ∧
    ((∀ e ∈ st.atomSpace, WFNode e.2) →
      ∀ e ∈ (applyRelevant st ids).atomSpace, WFNode e.2) := by
  induction ids generalizing st with
  | nil => exact ⟨rfl, rfl, fun h => h⟩
  | cons a t ih =>
    rw [applyRelevant_cons]
    obtain ⟨h1, h2, h3⟩ := ih (relevantStep st a)
    refine ⟨h1, h2, fun h => h3 ?_⟩
    have e1 : (relevantStep st a).atomSpace =
        mapUpdate st.atomSpace a bumpShortTerm := rfl
    rw [e1]
    exact mapUpdate_forall _ _ _ _ h bumpShortTerm_WF

theorem updateCognitiveState_inv (st : OrchestratorState) (input : CogInput)
    (h : InvCog st) : InvCog (updateCognitiveState st input) := by
  obtain ⟨hatom, hpats, _hsyn, hlr⟩ := h
  obtain ⟨hp1, hp2, hp3⟩ := applyRelevant_frame (findRelevantNodes input) st
  have e1 : (updateCognitiveState st input).atomSpace =
      (applyRelevant st (findRelevantNodes input)).atomSpace := rfl
  have e2 : (updateCognitiveState st input).patternMatchers =
      (applyRelevant st (findRelevantNodes input)).patternMatchers := rfl
  have e3 : (updateCognitiveState st input).cognitiveState.learningRate =
      (applyRelevant st (findRelevantNodes input)).cognitiveState.learningRate := rfl
  have e4 : (updateCognitiveState st input).cognitiveState.synergyLevel =
      computeSynergyLevel
        (updateAttentionalFocus (applyRelevant st (findRelevantNodes input))) := rfl
  refine ⟨?_, ?_, ?_, ?_⟩
  · rw [e1]; exact hp3 hatom
  · rw [e2, hp1]; exact hpats
  · rw [e4]
    apply computeSynergyLevel_bounds
    have e5 : (updateAttentionalFocus (applyRelevant st
        (findRelevantNodes input))).patternMatchers =
        (applyRelevant st (findRelevantNodes input)).patternMatchers := rfl
    rw [e5, hp1]
    exact hpats
  · rw [e3, hp2]; exact hlr

theorem updateNodesFromLearning_inv (st : OrchestratorState) (effectiveness : ℚ)
    (h : InvCog st) : InvCog (updateNodesFromLearning st effectiveness) := by
  refine ⟨?_, h.2.1, h.2.2.1, h.2.2.2⟩
  exact foldl_mapUpdate_forall _ _ _ _ h.1 (learnNodeUpdate_WF _ _)

theorem learnFromInteraction_inv (st : OrchestratorState) (input : CogInput)
    (resp : CogResponse) (t now : ℕ) (h : InvCog st) :
    InvCog (learnFromInteraction st input resp t now) := by
  obtain ⟨hatom, hpats, hsyn, hlr⟩ := h
  unfold learnFromInteraction
  apply updateNodesFromLearning_inv
  refine ⟨hatom, hpats, hsyn, ?_⟩
  dsimp only
  split
  · exact ⟨le_min (by norm_num) (by linarith [hlr.1]), min_le_left _ _⟩
  · split
    · exact ⟨le_max_left _ _, max_le (by norm_num) (by linarith [hlr.2])⟩
    · exact hlr

theorem reasonAboutIntent_bounds (st : OrchestratorState) (input : CogInput)
    (hpats : ∀ e ∈ st.patternMatchers, WFPattern e.2) :
    0 ≤ (reasonAboutIntent st input).confidence ∧
    (reasonAboutIntent st input).confidence ≤ 1 := by
  unfold reasonAboutIntent
  cases hm : mapGet st.patternMatchers "intent_recognition" with
  | none => norm_num
  | some p =>
    obtain ⟨e, he, hev⟩ := mapGet_mem _ _ _ hm
    have hwf := hpats e he
    rw [hev] at hwf
    have hact := calculatePatternActivation_bounds st p hwf.2.1
    have hb : ∀ c : ℚ, 0 ≤ c →
        0 ≤ min 1 (calculatePatternActivation st p + c) ∧
        min 1 (calculatePatternActivation st p + c) ≤ 1 := fun c hc =>
      ⟨le_min (by norm_num) (by linarith [hact.1]), min_le_left _ _⟩
    dsimp only
    cases input.text with
    | none => exact hact
    | some t =>
      dsimp only
      split_ifs
      · exact hact
      · exact hb 0.2 (by norm_num)
      · exact hb 0.15 (by norm_num)
      · exact hb 0.15 (by norm_num)
      · exact hact

theorem reasonAboutContext_bounds (st : OrchestratorState) (input : CogInput)
    (hpats : ∀ e ∈ st.patternMatchers, WFPattern e.2) :
    0 ≤ (reasonAboutContext st input).confidence ∧
    (reasonAboutContext st input).confidence ≤ 1 := by
  unfold reasonAboutContext
  cases hm : mapGet st.patternMatchers "dialog_management" with
  | none => norm_num
  | some p =>
    obtain ⟨e, he, hev⟩ := mapGet_mem _ _ _ hm
    have hwf := hpats e he
    rw [hev] at hwf
    exact calculatePatternActivation_bounds st p hwf.2.1

theorem reasonAboutAction_bounds (st : OrchestratorState) (input : CogInput)
    (hpats : ∀ e ∈ st.patternMatchers, WFPattern e.2) :
    0 ≤ (reasonAboutAction st input).confidence ∧
    (reasonAboutAction st input).confidence ≤ 1 := by
  unfold reasonAboutAction
  cases hm : mapGet st.patternMatchers "response_generation" with
  | none => norm_num
  | some p =>
    obtain ⟨e, he, hev⟩ := mapGet_mem _ _ _ hm
    have hwf := hpats e he
    rw [hev] at hwf
    exact calculatePatternActivation_bounds st p hwf.2.1

theorem applyCognitiveReasoning_bounds (st : OrchestratorState)
    (input : CogInput)
    (hpats : ∀ e ∈ st.patternMatchers, WFPattern e.2) :
    0 ≤ (applyCognitiveReasoning st input).confidence ∧
    (applyCognitiveReasoning st input).confidence ≤ 1 := by
  have hi := reasonAboutIntent_bounds st input hpats
  have hc := reasonAboutContext_bounds st input hpats
  have ha := reasonAboutAction_bounds st input hpats
  unfold applyCognitiveReasoning
  dsimp only
  constructor
  · linarith [hi.1, hc.1, ha.1]
  · linarith [hi.2, hc.2, ha.2]

theorem processInput_inv (st : OrchestratorState) (input : CogInput) (g : Fin 3)
    (t1 t2 now : ℕ) (h : InvCog st) :
    InvCog (processInput st input g t1 t2 now).1 ∧
    (0 ≤ (processInput st input g t1 t2 now).2.1.confidence ∧
      (processInput st input g t1 t2 now).2.1.confidence ≤ 1) := by
  have h1 := updateCognitiveState_inv st input h
  have hconf := applyCognitiveReasoning_bounds (updateCognitiveState st input)
    input h1.2.1
  have e2 : (processInput st input g t1 t2 now).2.1.confidence =
      (applyCognitiveReasoning (updateCognitiveState st input) input).confidence := rfl
  refine ⟨?_, by rw [e2]; exact hconf⟩
  have e1 : (processInput st input g t1 t2 now).1 =
      (if (updateCognitiveState st input).learningEnabled then
        learnFromInteraction (updateCognitiveState st input) input
          (generateSynergyResponse (updateCognitiveState st input)
            (applyCognitiveReasoning (updateCognitiveState st input) input) g)
          t1 now
       else updateCognitiveState st input) := rfl
  rw [e1]
  split
  · exact learnFromInteraction_inv _ _ _ _ _ h1
  · exact h1

set_option maxHeartbeats 1000000 in
theorem initializeCognitiveSystem_inv (st : OrchestratorState) (now : ℕ) :
    InvCog (initializeCognitiveSystem st now) := by
  have e : (initializeCognitiveSystem st now).patternMatchers =
      [("intent_recognition", intentPattern now),
       ("dialog_management", dialogPattern now),
       ("response_generation", responsePattern now)] := rfl
  refine ⟨?_, ?_, ?_, ?_⟩
  · intro x hx
    exact absurd hx (List.not_mem_nil x)
  · intro x hx
    rw [e] at hx
    rcases List.mem_cons.mp hx with rfl | hx
    · refine ⟨by norm_num [intentPattern], ?_, ?_⟩ <;> intro y hy <;>
        simp [intentPattern, createIntentNodes, createIntentLinks] at hy <;>
        rcases hy with rfl | rfl | rfl <;>
        norm_num [WFNode, WFTruth, WFAttention, WFLink]
    · rcases List.mem_cons.mp hx with rfl | hx
      · refine ⟨by norm_num [dialogPattern], ?_, ?_⟩ <;> intro y hy <;>
          simp [dialogPattern, createDialogNodes, createDialogLinks] at hy <;>
          rcases hy with rfl | rfl <;>
          norm_num [WFNode, WFTruth, WFAttention, WFLink]
      · rcases List.mem_cons.mp hx with rfl | hx
        · refine ⟨by norm_num [responsePattern], ?_, ?_⟩ <;> intro y hy <;>
            simp [responsePattern, createResponseNodes, createResponseLinks] at hy <;>
            rcases hy with rfl | rfl <;>
            norm_num [WFNode, WFTruth, WFAttention, WFLink]
        · exact absurd hx (List.not_mem_nil x)
  · constructor <;> norm_num [initializeCognitiveSystem]
  · constructor <;> norm_num [initializeCognitiveSystem]

theorem initOrchestratorState_inv (now : ℕ) :
    InvCog (initOrchestratorState now) :=
  initializeCognitiveSystem_inv _ now

theorem applyOp_inv (st : OrchestratorState) (op : Op) (hop : WFOp op)
    (h : InvCog st) :
    InvCog (applyOp st op).1 ∧ RespBounded (applyOp st op).2 := by
  cases op with
  | procInput input g t1 t2 now =>
    obtain ⟨hi, hc⟩ := processInput_inv st input g t1 t2 now h
    refine ⟨hi, fun r hr => ?_⟩
    have e1 : (applyOp st (Op.procInput input g t1 t2 now)).2 =
        [(processInput st input g t1 t2 now).2.1] := rfl
    rw [e1] at hr
    rcases List.mem_singleton.mp hr with rfl
    exact hc
  | setAutonomous b => exact ⟨h, fun r hr => absurd hr (List.not_mem_nil r)⟩
  | setLearning b => exact ⟨h, fun r hr => absurd hr (List.not_mem_nil r)⟩
  | setAdaptThreshold q => exact ⟨h, fun r hr => absurd hr (List.not_mem_nil r)⟩
  | addPattern p =>
    exact ⟨⟨h.1, mapSet_forall _ _ _ _ h.2.1 hop, h.2.2.1, h.2.2.2⟩,
      fun r hr => absurd hr (List.not_mem_nil r)⟩
  | removePattern patternId =>
    exact ⟨⟨h.1, mapDelete_forall _ _ _ h.2.1, h.2.2.1, h.2.2.2⟩,
      fun r hr => absurd hr (List.not_mem_nil r)⟩
  | resetOp now =>
    exact ⟨initializeCognitiveSystem_inv st now,
      fun r hr => absurd hr (List.not_mem_nil r)⟩

theorem runOps_fold_inv (ops : List Op) (st : OrchestratorState)
    (acc : List CogResponse) (hops : ∀ op ∈ ops, WFOp op) (hst : InvCog st)
    (hacc : RespBounded acc) :
    InvCog (ops.foldl runStep (st, acc)).1 ∧
    RespBounded (ops.foldl runStep (st, acc)).2 := by
  induction ops generalizing st acc with
  | nil => exact ⟨hst, hacc⟩
  | cons op t ih =>
    rw [List.foldl_cons]
    obtain ⟨h1, h2⟩ := applyOp_inv st op (hops op (List.mem_cons_self _ _)) hst
    have e1 : runStep (st, acc) op =
        ((applyOp st op).1, acc ++ (applyOp st op).2) := rfl
    rw [e1]
    refine ih _ _ (fun o ho => hops o (List.mem_cons_of_mem _ ho)) h1 ?_
    intro r hr
    rcases List.mem_append.mp hr with hr1 | hr1
    · exact hacc r hr1
    · exact h2 r hr1

/-- C7: after any sequence of public orchestrator operations from the
seeded startup state — processInput calls with arbitrary inputs,
configuration setters, pattern add/remove (with added patterns respecting
the data-model ranges, as the data model declares all truth, attention and
synergy values to live in [0,1]) and reset — every truth value and
attention value stored in the state lies in [0,1], the synergy level lies
in [0,1], the learning rate lies in [0.05, 0.2], and the confidence of
every response produced along the way (which equals the overall reasoning
confidence of its call) lies in [0,1]. -/
theorem public_ops_preserve_bounds (now : ℕ) (ops : List Op)
    (hops : ∀ op ∈ ops, WFOp op) :
    InvCog (runOps (initOrchestratorState now) ops).1 ∧
    RespBounded (runOps (initOrchestratorState now) ops).2 :=
  runOps_fold_inv ops (initOrchestratorState now) [] hops
    (initOrchestratorState_inv now) (fun r hr => absurd hr (List.not_mem_nil r))

set_option maxHeartbeats 1000000 in
set_option maxRecDepth 100000 in
/-- C7 witness: the bounds theorem applied to a concrete operation
sequence: add a custom in-range pattern, process two inputs, disable
learning, and reset. -/
theorem public_ops_preserve_bounds_witness :
    InvCog (runOps (initOrchestratorState 0) c7WitnessOps).1 ∧
    RespBounded (runOps (initOrchestratorState 0) c7WitnessOps).2 :=
  public_ops_preserve_bounds 0 c7WitnessOps (by with_unfolding_all decide)

end CogBot
